import Mathlib

/-!
Verification of the plane-tracker backend's estimation-and-forecast engine.

The development shallow-embeds the Python sources:

* `src/Backend/kalman_filter.py` — `AltitudeKalmanFilter` (a two-state
  linear filter over explicit 2×2 matrices) and `FlightTrajectoryPredictor`
  (Earth-centered Cartesian trajectory extrapolation).
* `src/Backend/flights.py` — `FlightService`: the rate-budgeted fetch/cache
  orchestrator, the altitude fallback ladder `_predict_missing_altitude`,
  and the per-flight enrichment `_enhance_flight_data`.

Conventions:
* Python floats are modelled by `ℝ` (exact real arithmetic); the cache /
  rate-limit clock arithmetic is modelled over `ℚ` so that concrete runs
  are decidable.  Division by zero is Lean's junk value `0` where the
  Python code would produce an error or a NaN; every theorem that depends
  on a division notes the non-zero side condition.
* `datetime.now()` time deltas are passed explicitly: `update` takes the
  elapsed seconds `dt` as an argument (the source computes it from the wall
  clock, defaulting to 1.0 for the first update).
* Python `x or y` on floats (None and 0.0 are falsy) is `pyOrFloat`.
* The upstream HTTP call is modelled by a `FetchOutcome` oracle argument;
  an async suspension point is modelled in the C9 scheduler by splitting
  `get_sf_bay_flights` into its synchronous prefix and its post-await
  continuation, which is faithful to cooperative (single-thread) asyncio
  scheduling: interleaving can happen only at the await.
-/

namespace PlaneTracker

/-! ### 2×2 matrices and 2-vectors (numpy arrays in the source) -/

/-- A 2×2 real matrix, row major: `[[a, b], [c, d]]`. -/
structure Mat2 where
  a : ℝ
  b : ℝ
  c : ℝ
  d : ℝ

/-- A real 2-vector. -/
structure Vec2 where
  x : ℝ
  y : ℝ

noncomputable instance : Mul Mat2 :=
  ⟨fun M N => ⟨M.a * N.a + M.b * N.c, M.a * N.b + M.b * N.d,
               M.c * N.a + M.d * N.c, M.c * N.b + M.d * N.d⟩⟩

noncomputable instance : Add Mat2 :=
  ⟨fun M N => ⟨M.a + N.a, M.b + N.b, M.c + N.c, M.d + N.d⟩⟩

@[simp] theorem Mat2.mul_def (M N : Mat2) :
    M * N = ⟨M.a * N.a + M.b * N.c, M.a * N.b + M.b * N.d,
             M.c * N.a + M.d * N.c, M.c * N.b + M.d * N.d⟩ := rfl

@[simp] theorem Mat2.add_def (M N : Mat2) :
    M + N = ⟨M.a + N.a, M.b + N.b, M.c + N.c, M.d + N.d⟩ := rfl

/-- Matrix transpose (`numpy.T`). -/
def Mat2.transpose (M : Mat2) : Mat2 := ⟨M.a, M.c, M.b, M.d⟩

/-- Matrix–vector product (`M @ v`). -/
noncomputable def Mat2.mulVec (M : Mat2) (v : Vec2) : Vec2 :=
  ⟨M.a * v.x + M.b * v.y, M.c * v.x + M.d * v.y⟩

/-! ### AltitudeKalmanFilter (kalman_filter.py, lines 10–118) -/

/-- State of one `AltitudeKalmanFilter`: state vector `[altitude,
vertical_rate]`, 2×2 covariance, the (mutable) measurement-noise scalar
`R`, and the two unbounded history logs.  History entries keep the numeric
payload of the dicts the source appends (`datetime.now()` timestamps are
dropped — no claim concerns them). -/
structure KalmanState where
  state : Vec2
  covariance : Mat2
  R : ℝ
  measurementHistory : List (ℝ × Option ℝ)
  predictionHistory : List (ℝ × ℝ)

/-- Fresh filter: `state = [35000, 0]`, `covariance = [[1000,0],[0,100]]`,
`R = [[100]]`, empty histories (`__init__`). -/
def KalmanState.init : KalmanState :=
  ⟨⟨35000, 0⟩, ⟨1000, 0, 0, 100⟩, 100, [], []⟩

/-- Process noise `Q = [[1.0, 0], [0, 0.1]]`. -/
noncomputable def Qnoise : Mat2 := ⟨1, 0, 0, 1 / 10⟩

/-- State-transition matrix with `F[0,1] = dt`. -/
def Fmat (dt : ℝ) : Mat2 := ⟨1, dt, 0, 1⟩

/-- The filter's `predict(dt)`: `state = F @ state`,
`covariance = F @ covariance @ F.T + Q`, and the new state is appended to
`prediction_history`. -/
noncomputable def KalmanState.predict (dt : ℝ) (kf : KalmanState) : KalmanState :=
  let F := Fmat dt
  let st := F.mulVec kf.state
  { kf with
    state := st
    covariance := F * kf.covariance * F.transpose + Qnoise
    predictionHistory := kf.predictionHistory ++ [(st.x, st.y)] }

/-- The filter's `update(measured_altitude, measured_vertical_rate?,
measurement_uncertainty?)` with the elapsed time `dt` passed explicitly
(the source reads the wall clock; `dt = 1.0` when there was no prior
update).  Steps: predict, optionally overwrite `R` (Python truthiness: a
`0.0` uncertainty is ignored), Kalman gain `K = P Hᵀ S⁻¹` with
`S = H P Hᵀ + R` and `H = [1, 0]`, state and covariance correction, then
the optional direct overwrite of the vertical rate, and the measurement
log append. -/
noncomputable def KalmanState.update (measured : ℝ) (mvr : Option ℝ) (unc : Option ℝ)
    (dt : ℝ) (kf : KalmanState) : KalmanState :=
  let kf1 := kf.predict dt
  let Rnew := match unc with
    | some u => if u = 0 then kf1.R else u
    | none => kf1.R
  let P := kf1.covariance
  let S := P.a + Rnew
  let K : Vec2 := ⟨P.a / S, P.c / S⟩
  let innov := measured - kf1.state.x
  let st2 : Vec2 := ⟨kf1.state.x + K.x * innov, kf1.state.y + K.y * innov⟩
  let cov2 : Mat2 := ⟨P.a - K.x * P.a, P.b - K.x * P.b,
                      P.c - K.y * P.a, P.d - K.y * P.b⟩
  let st3 : Vec2 := match mvr with
    | some v => ⟨st2.x, v⟩
    | none => st2
  { kf1 with
    state := st3
    covariance := cov2
    R := Rnew
    measurementHistory := kf1.measurementHistory ++ [(measured, mvr)] }

/-- `get_confidence()`: `max(0, min(1, 1 − P[0,0]/1000))`. -/
noncomputable def KalmanState.getConfidence (kf : KalmanState) : ℝ :=
  max 0 (min 1 (1 - kf.covariance.a / 1000))

/-! ### C5 — composition of `predict` -/

/-- Claim C5 (as stated) fails: composing `predict(1)` twice does not give
`predict(2)` on the covariance, because the process noise `Q` is added once
per call.  Concretely, from the initial filter state the `[0,0]` covariance
entry is `1402.1` after `predict(1); predict(1)` but `1401` after
`predict(2)`. -/
theorem c5_counterexample :
    ((KalmanState.init.predict 1).predict 1).covariance.a = 14021 / 10 ∧
    (KalmanState.init.predict 2).covariance.a = 1401 ∧
    ¬ ((KalmanState.init.predict 1).predict 1).covariance.a
        = (KalmanState.init.predict 2).covariance.a := by
  refine ⟨?_, ?_, ?_⟩ <;>
    simp only [KalmanState.init, KalmanState.predict, Fmat, Qnoise,
      Mat2.mulVec, Mat2.transpose, Mat2.mul_def, Mat2.add_def] <;>
    norm_num

/-- Claim C5, amended: for every filter state and all `dt1`, `dt2`, the
state vector of `predict(dt1); predict(dt2)` equals that of a single
`predict(dt1+dt2)`, but the covariance of the two-step run exceeds the
one-step covariance by exactly `F(dt2) Q F(dt2)ᵀ` — the process noise is
applied once per call, so the full state-and-covariance equality claimed
fails whenever that matrix is non-zero. -/
theorem c5_amended (kf : KalmanState) (dt1 dt2 : ℝ) :
    ((kf.predict dt1).predict dt2).state = (kf.predict (dt1 + dt2)).state ∧
    ((kf.predict dt1).predict dt2).covariance =
      (kf.predict (dt1 + dt2)).covariance +
        (Fmat dt2 * Qnoise * (Fmat dt2).transpose) := by
  constructor
  · show Vec2.mk _ _ = Vec2.mk _ _
    simp only [KalmanState.predict, Fmat, Mat2.mulVec]
    congr 1 <;> ring
  · show Mat2.mk _ _ _ _ = Mat2.mk _ _ _ _
    simp only [KalmanState.predict, Fmat, Qnoise, Mat2.mulVec, Mat2.transpose,
      Mat2.mul_def, Mat2.add_def]
    congr 1 <;> ring

/-! ### FetchOrchestrator (flights.py, lines 26–141): cache + rate budget

Time is modelled over `ℚ`; the snapshot payload is a `List α` of parsed
flights.  The upstream HTTP call of `_fetch_flights_from_api` is an oracle
argument `FetchOutcome`. -/

/-- The `FlightService` fields that carry the cache and the rate budget
(`__init__`, lines 26–35). -/
structure ServiceState (α : Type) where
  cache : Option (List α)
  cacheTimestamp : ℚ
  lastRequestTime : ℚ
  dailyCreditsUsed : ℕ
  maxDailyCredits : ℕ
  rateLimitRemaining : ℤ
  rateLimitResetTime : Option ℚ

/-- `_cache_duration = 8` seconds. -/
def cacheDuration : ℚ := 8

/-- `_min_request_interval = 5` seconds. -/
def minRequestInterval : ℚ := 5

/-- What one upstream call can come back with: a 200 with parsed flights
and the optional `X-Rate-Limit-Remaining` header, a 429 with a retry-after
and the optional header, another status with the header, or a raised
exception (no headers processed). -/
inductive FetchOutcome (α : Type) where
  | ok (flights : List α) (remaining : Option ℤ)
  | tooMany (retryAfter : ℚ) (remaining : Option ℤ)
  | err (remaining : Option ℤ)
  | exc

/-- `_can_make_request`: minimum interval elapsed, daily credits below the
ceiling, and remaining credits positive. -/
def canMakeRequest (s : ServiceState α) (now : ℚ) : Bool :=
  ¬ (now - s.lastRequestTime < minRequestInterval) &&
  ¬ (s.dailyCreditsUsed ≥ s.maxDailyCredits) &&
  ¬ (s.rateLimitRemaining ≤ 0)

/-- `_update_rate_limit_info`: when the remaining header is present, store
it and set the ceiling to 8000 when it exceeds 4000, else 4000. -/
def applyHeaders (s : ServiceState α) (remaining : Option ℤ) : ServiceState α :=
  match remaining with
  | none => s
  | some r =>
    { s with rateLimitRemaining := r
             maxDailyCredits := if r > 4000 then 8000 else 4000 }

/-- The synchronous prefix of `get_sf_bay_flights` (lines 55–66): the
freshness check and the admission check, which run without any await. -/
inductive SyncDecision (α : Type) where
  | freshHit (flights : List α)
  | limited (flights : List α)
  | doFetch

/-- The decision the synchronous prefix reaches at entry time `now`. -/
def syncDecision (force : Bool) (s : ServiceState α) (now : ℚ) : SyncDecision α :=
  match s.cache with
  | some c =>
    if ¬ force ∧ now - s.cacheTimestamp < cacheDuration then .freshHit c
    else if ¬ canMakeRequest s now then .limited c
    else .doFetch
  | none =>
    if ¬ canMakeRequest s now then .limited []
    else .doFetch

/-- `_fetch_flights_from_api` (lines 99–126) followed by the cache update
of `get_sf_bay_flights` (lines 71–79).  `entry` is the `current_time`
captured at the top of `get_sf_bay_flights`: the source stamps the cache
and the last-request time with it.  On 429 the reset deadline is recorded
(the source stamps it with the response arrival time; the claims checked
here never read that value on a path where it differs from `entry`).  On a
non-200 outcome the cache and the budget are left unchanged and the stale
cache (or `[]`) is returned. -/
def applyFetch (s : ServiceState α) (entry : ℚ) (o : FetchOutcome α) :
    List α × ServiceState α :=
  match o with
  | .ok flights remaining =>
    let s1 := applyHeaders s remaining
    let s2 := { s1 with dailyCreditsUsed := s1.dailyCreditsUsed + 1 }
    (flights, { s2 with cache := some flights, cacheTimestamp := entry,
                        lastRequestTime := entry })
  | .tooMany retryAfter remaining =>
    let s1 := applyHeaders s remaining
    ((s.cache.getD []), { s1 with rateLimitResetTime := some (entry + retryAfter) })
  | .err remaining =>
    ((s.cache.getD []), applyHeaders s remaining)
  | .exc => ((s.cache.getD []), s)

/-- `get_sf_bay_flights(force_refresh)` run to completion at entry time
`now` against the oracle outcome `o`.  Returns the flights, the new
service state, and whether an upstream call was issued. -/
def getSfBayFlights (force : Bool) (now : ℚ) (o : FetchOutcome α)
    (s : ServiceState α) : List α × ServiceState α × Bool :=
  match syncDecision force s now with
  | .freshHit c => (c, s, false)
  | .limited c => (c, s, false)
  | .doFetch =>
    let (r, s2) := applyFetch s now o
    (r, s2, true)

/-! ### C3 — cache hits and exhausted credits spend nothing -/

/-- Claim C3, amended: (1) a `get_snapshot(false)` call made less than the
cache duration (8 s) after the cached snapshot was captured returns that
snapshot with the whole service state unchanged and no upstream call — so
two such calls inside one capture window return the identical snapshot and
timestamp and consume no credits; (2) a call finding the cache stale, with
the minimum interval elapsed but `credits_used` at or above the ceiling,
returns the stale snapshot, makes no upstream call, and leaves the state
(in particular `credits_used`) unchanged.  The amendment to (1): the
original claim keyed the window to the spacing between the two calls
rather than to the capture time, which the counterexample refutes. -/
theorem c3_amended {α : Type} (s : ServiceState α) (now : ℚ) (o : FetchOutcome α)
    (c : List α) (hc : s.cache = some c) :
    (now - s.cacheTimestamp < cacheDuration →
      getSfBayFlights false now o s = (c, s, false)) ∧
    (¬ now - s.cacheTimestamp < cacheDuration →
      minRequestInterval ≤ now - s.lastRequestTime →
      s.maxDailyCredits ≤ s.dailyCreditsUsed →
      getSfBayFlights false now o s = (c, s, false)) := by
  constructor
  · intro hfresh
    simp [getSfBayFlights, syncDecision, hc, hfresh]
  · intro hstale hint hcred
    have hcan : canMakeRequest s now = false := by
      simp only [canMakeRequest]
      simp [show s.dailyCreditsUsed ≥ s.maxDailyCredits from hcred]
    simp [getSfBayFlights, syncDecision, hc, hstale, hcan]

/-- Witness for C3: a concrete state fetched at time 0 (cache `[1]`);
a fresh read at `t = 7` returns the cache unchanged, and with the credits
ceiling reached a stale read at `t = 9` also returns the cache unchanged. -/
theorem c3_witness :
    getSfBayFlights false 7 (.ok [2] none)
      (⟨some [1], 0, 0, 1, 4000, 4000, none⟩ : ServiceState ℕ)
      = ([1], ⟨some [1], 0, 0, 1, 4000, 4000, none⟩, false) ∧
    getSfBayFlights false 9 (.ok [2] none)
      (⟨some [1], 0, 0, 4000, 4000, 4000, none⟩ : ServiceState ℕ)
      = ([1], ⟨some [1], 0, 0, 4000, 4000, 4000, none⟩, false) :=
  ⟨(c3_amended ⟨some [1], 0, 0, 1, 4000, 4000, none⟩ 7 (.ok [2] none) [1] rfl).1
      (by norm_num [cacheDuration]),
   (c3_amended ⟨some [1], 0, 0, 4000, 4000, 4000, none⟩ 9 (.ok [2] none) [1] rfl).2
      (by norm_num [cacheDuration]) (by norm_num [minRequestInterval]) (by norm_num)⟩

/-- Claim C3 (as stated) fails: two `get_snapshot(false)` calls separated
by less than 8 s need not return the same snapshot or spend zero credits —
the freshness window is keyed to the capture time, not to the previous
call.  Concretely: snapshot captured at `t = 0`; a call at `t = 7` is a
cache hit; a call at `t = 8.5` (1.5 s later) finds the cache stale, passes
admission, refetches, and increments `credits_used` from 1 to 2 with a new
snapshot `[2] ≠ [1]`. -/
theorem c3_counterexample :
    (getSfBayFlights false 7 (.ok [2] none)
        (⟨some [1], 0, 0, 1, 4000, 4000, none⟩ : ServiceState ℕ)).1 = [1] ∧
    ((17 : ℚ) / 2) - 7 < cacheDuration ∧
    (getSfBayFlights false (17 / 2) (.ok [2] none)
        (⟨some [1], 0, 0, 1, 4000, 4000, none⟩ : ServiceState ℕ)).1 = [2] ∧
    (getSfBayFlights false (17 / 2) (.ok [2] none)
        (⟨some [1], 0, 0, 1, 4000, 4000, none⟩ : ServiceState ℕ)).2.1.dailyCreditsUsed
      = 2 ∧
    (getSfBayFlights false (17 / 2) (.ok [2] none)
        (⟨some [1], 0, 0, 1, 4000, 4000, none⟩ : ServiceState ℕ)).2.2 = true := by
  refine ⟨?_, by norm_num [cacheDuration], ?_, ?_, ?_⟩ <;>
    norm_num [getSfBayFlights, syncDecision, canMakeRequest, applyFetch,
      applyHeaders, cacheDuration, minRequestInterval]

/-! ### C9 — concurrent `get_snapshot` callers (cooperative interleaving)

`get_sf_bay_flights` is an `async def` whose only suspension point is the
awaited HTTP round trip; under asyncio's single-threaded cooperative
scheduling, a concurrent caller can therefore run exactly between a
caller's synchronous prefix (`syncDecision`) and its post-await
continuation (`applyFetch`).  Each task below is one caller of
`get_sf_bay_flights(force_refresh=False)`; the scheduler counts the
upstream HTTP requests issued. -/

/-- Where one caller of `get_sf_bay_flights` stands. -/
inductive TaskPhase where
  | ready
  | awaitingFetch
  | done
deriving DecidableEq

/-- One caller: its phase, its `current_time` captured at entry, the
outcome its HTTP request will produce, and its eventual return value. -/
structure CallerTask (α : Type) where
  pc : TaskPhase
  entryTime : ℚ
  outcome : FetchOutcome α
  result : Option (List α)

/-- The whole system: shared service state, the number of upstream HTTP
requests issued so far, and the callers. -/
structure SystemState (α : Type) where
  svc : ServiceState α
  upstreamCalls : ℕ
  tasks : List (CallerTask α)

/-- Run caller `i` up to its next suspension point (or to completion):
a `ready` task runs the synchronous prefix — on a cache hit or a rate
refusal it completes without touching shared state; if admission passes it
issues the HTTP request (counted here, where the await starts) and
suspends.  An `awaitingFetch` task resumes after the response and runs the
remainder (`applyFetch`), which is where the shared cache and budget are
finally written. -/
def stepTask (sys : SystemState α) (i : ℕ) : SystemState α :=
  match sys.tasks[i]? with
  | none => sys
  | some t =>
    match t.pc with
    | .ready =>
      match syncDecision false sys.svc t.entryTime with
      | .freshHit c =>
        { sys with tasks := sys.tasks.set i { t with pc := .done, result := some c } }
      | .limited c =>
        { sys with tasks := sys.tasks.set i { t with pc := .done, result := some c } }
      | .doFetch =>
        { sys with upstreamCalls := sys.upstreamCalls + 1,
                   tasks := sys.tasks.set i { t with pc := .awaitingFetch } }
    | .awaitingFetch =>
      let (r, svc2) := applyFetch sys.svc t.entryTime t.outcome
      { sys with svc := svc2,
                 tasks := sys.tasks.set i { t with pc := .done, result := some r } }
    | .done => sys

/-- Run a schedule: a list of task indices, each entry letting that task
run to its next suspension point. -/
def runSchedule (sched : List ℕ) (sys : SystemState α) : SystemState α :=
  sched.foldl stepTask sys

/-- Claim C9, amended: the orchestrator has no single-flight gate.  A
`ready` caller whose synchronous prefix decides to fetch increments the
upstream-call count by one and leaves the shared service state untouched
(the cache and `last_request_time` are only written after its await), so
every concurrent caller whose prefix runs while a fetch is outstanding
passes the same admission checks and issues its own upstream call, rather
than awaiting the in-flight one. -/
theorem c9_amended {α : Type} (sys : SystemState α) (i : ℕ) (t : CallerTask α)
    (ht : sys.tasks[i]? = some t) (hpc : t.pc = .ready)
    (hdec : syncDecision false sys.svc t.entryTime = .doFetch) :
    (stepTask sys i).upstreamCalls = sys.upstreamCalls + 1 ∧
    (stepTask sys i).svc = sys.svc := by
  simp [stepTask, ht, hpc, hdec]

/-- Witness for C9: one concrete ready caller over a stale, admissible
state issues exactly one more upstream call and leaves the service state
unchanged. -/
theorem c9_witness :
    (let svc0 : ServiceState ℕ := ⟨some [7], 0, 0, 1, 4000, 4000, none⟩
     let t0 : CallerTask ℕ := ⟨.ready, 10, .ok [8] none, none⟩
     let sys : SystemState ℕ := ⟨svc0, 0, [t0]⟩
     (stepTask sys 0).upstreamCalls = sys.upstreamCalls + 1 ∧
     (stepTask sys 0).svc = sys.svc) := by
  refine c9_amended _ 0 _ rfl rfl ?_
  norm_num [syncDecision, canMakeRequest, cacheDuration, minRequestInterval]

/-- Claim C9 (as stated) fails: two callers that both enter
`get_sf_bay_flights` at `t = 10` over a stale, admissible state (last
fetch at `t = 0`), interleaved at the await point (schedule: prefix 0,
prefix 1, resume 0, resume 1), issue two upstream calls, not one — caller
1's admission check runs before caller 0's fetch has written
`last_request_time` or the cache. -/
theorem c9_counterexample :
    (runSchedule [0, 1, 0, 1]
      (⟨⟨some [7], 0, 0, 1, 4000, 4000, none⟩, 0,
        [⟨.ready, 10, .ok [8] none, none⟩,
         ⟨.ready, 10, .ok [9] none, none⟩]⟩ : SystemState ℕ)).upstreamCalls = 2 ∧
    ¬ (runSchedule [0, 1, 0, 1]
      (⟨⟨some [7], 0, 0, 1, 4000, 4000, none⟩, 0,
        [⟨.ready, 10, .ok [8] none, none⟩,
         ⟨.ready, 10, .ok [9] none, none⟩]⟩ : SystemState ℕ)).upstreamCalls = 1 := by
  have hdec : syncDecision false (⟨some [7], 0, 0, 1, 4000, 4000, none⟩ : ServiceState ℕ) 10
      = .doFetch := by
    norm_num [syncDecision, canMakeRequest, cacheDuration, minRequestInterval]
  simp only [runSchedule, List.foldl_cons, List.foldl_nil]
  norm_num [stepTask, hdec, applyFetch, applyHeaders, List.set]

/-! ### Parsed flights and the altitude fallback ladder (flights.py 151–476) -/

/-- One parsed OpenSky state vector (`_parse_flight_data`), restricted to
the fields the embedded functions read; `origin_country`, the timestamps,
`sensors`, `squawk`, `spi` and `position_source` are carried through the
source untouched and are omitted here. -/
structure Flight where
  icao24 : String
  callsign : String
  longitude : Option ℝ
  latitude : Option ℝ
  baro_altitude : Option ℝ
  on_ground : Bool
  velocity : Option ℝ
  true_track : Option ℝ
  vertical_rate : Option ℝ
  geo_altitude : Option ℝ

/-- Python `x or d` on an optional float: `None` and `0.0` are falsy. -/
noncomputable def pyOrFloat (o : Option ℝ) (d : ℝ) : ℝ :=
  match o with
  | some v => if v = 0 then d else v
  | none => d

/-- `math.radians`. -/
noncomputable def radians (x : ℝ) : ℝ := x * Real.pi / 180

/-- `math.degrees`. -/
noncomputable def degrees (x : ℝ) : ℝ := x * 180 / Real.pi

/-- `math.atan2 y x`, which is the argument of the complex number
`x + y·i` (range `(−π, π]`, and `atan2 0 0 = 0`). -/
noncomputable def atan2 (y x : ℝ) : ℝ := Complex.arg ⟨x, y⟩

/-- `_calculate_bearing` (flights.py lines 459–472; the identical formula
appears in kalman_filter.py lines 283–297). -/
noncomputable def calculateBearing (lat1 lon1 lat2 lon2 : ℝ) : ℝ :=
  let lat1r := radians lat1
  let lat2r := radians lat2
  let dlonr := radians (lon2 - lon1)
  let y := Real.sin dlonr * Real.cos lat2r
  let x := Real.cos lat1r * Real.sin lat2r -
    Real.sin lat1r * Real.cos lat2r * Real.cos dlonr
  degrees (atan2 y x)

/-- `_is_reasonable_altitude`: `0 <= altitude <= 50000`. -/
noncomputable def isReasonableAltitude (a : ℝ) : Bool :=
  decide (0 ≤ a ∧ a ≤ 50000)

/-- Which rung of the fallback ladder produced the resolved altitude.  The
source has no such tag (it returns a bare float); the spec names the rungs
`measured-baro | measured-geo | filter-predicted | rate-integrated |
velocity-heuristic | phase-heuristic | default`, and the tag here simply
records which return site of `_predict_missing_altitude` fired. -/
inductive Provenance where
  | measuredBaro
  | measuredGeo
  | filterPredicted
  | rateIntegrated
  | velocityHeuristic
  | phaseHeuristic
  | defaultEstimate
deriving DecidableEq

/-- Result of the fallback ladder: the altitude, the rung that produced
it, and the filter state after the ladder's side effects. -/
structure ResolvedAltitude where
  value : ℝ
  provenance : Provenance
  filter : KalmanState

/-- The newest-to-oldest scan of `_integrate_vertical_rate` (lines
373–382): walking the (reversed) history, find the most recent same-key
entry carrying a barometric (else geometric) altitude; the counter adds
one for every same-key entry passed that carries neither. -/
def scanLastAltitude (icao : String) : List Flight → Option ℝ × ℕ
  | [] => (none, 0)
  | f :: rest =>
    if f.icao24 = icao then
      match f.baro_altitude with
      | some b => (some b, 0)
      | none =>
        match f.geo_altitude with
        | some g => (some g, 0)
        | none =>
          let r := scanLastAltitude icao rest
          (r.1, r.2 + 1)
    else scanLastAltitude icao rest

/-- `_integrate_vertical_rate`: most recent known altitude for the key
plus `vertical_rate × polls-without-altitude`, floored at 0; `35000` when
the history is empty or holds no altitude. -/
noncomputable def integrateVerticalRate (flight : Flight) (history : List Flight) : ℝ :=
  match history with
  | [] => 35000
  | _ =>
    let scan := scanLastAltitude flight.icao24 history.reverse
    match scan.1 with
    | none => 35000
    | some lastAlt =>
      max 0 (lastAlt + pyOrFloat flight.vertical_rate 0 * (scan.2 : ℝ))

/-- `_estimate_from_velocity`: the fixed speed-to-altitude lookup. -/
noncomputable def estimateFromVelocity (v : ℝ) : ℝ :=
  if v < 50 then 0
  else if v < 150 then 5000
  else if v < 250 then 15000
  else if v < 350 then 25000
  else if v < 450 then 35000
  else 40000

/-- The last-5 same-key positions used by `_estimate_from_flight_phase`
(lines 414–420). -/
def phasePositions (flight : Flight) (history : List Flight) : List (ℝ × ℝ) :=
  (history.drop (history.length - 5)).filterMap fun p =>
    if p.icao24 = flight.icao24 then
      match p.latitude, p.longitude with
      | some la, some lo => some (la, lo)
      | _, _ => none
    else none

/-- `_analyze_trajectory`: mean of the consecutive bearing changes along
the position list (0 with fewer than 2 bearings).  The `current_flight`
argument is unused in the source and dropped here. -/
noncomputable def analyzeTrajectory (positions : List (ℝ × ℝ)) : ℝ :=
  if positions.length < 2 then 0
  else
    let bearings := (positions.zip positions.tail).map fun pq =>
      calculateBearing pq.1.1 pq.1.2 pq.2.1 pq.2.2
    if bearings.length < 2 then 0
    else
      let changes := (bearings.zip bearings.tail).map fun ab => ab.2 - ab.1
      changes.sum / changes.length

/-- `_estimate_from_flight_phase`: 35000 with no usable trend, else 20000
(climbing), 30000 (descending) or 35000 (level) by the bearing trend. -/
noncomputable def estimateFromFlightPhase (flight : Flight) (history : List Flight) : ℝ :=
  match history with
  | [] => 35000
  | _ =>
    let positions := phasePositions flight history
    if positions.length < 2 then 35000
    else
      let ac := analyzeTrajectory positions
      if ac > 1 / 10 then 20000
      else if ac < -(1 / 10) then 30000
      else 35000

/-- Ladder rung 5 (`_estimate_from_flight_phase` as the final fallback),
tagged `phase-heuristic` when a trend was actually analysed and `default`
when the history gave fewer than 2 usable points. -/
noncomputable def resolvePhase (flight : Flight) (kf : KalmanState)
    (history : List Flight) : ResolvedAltitude :=
  ⟨estimateFromFlightPhase flight history,
   (match history with
    | [] => .defaultEstimate
    | _ => if (phasePositions flight history).length < 2 then .defaultEstimate
           else .phaseHeuristic),
   kf⟩

/-- Ladder rung 4: the velocity lookup, range-checked. -/
noncomputable def resolveVelocityOnward (flight : Flight) (kf : KalmanState)
    (history : List Flight) : ResolvedAltitude :=
  match flight.velocity with
  | some v =>
    if isReasonableAltitude (estimateFromVelocity v)
    then ⟨estimateFromVelocity v, .velocityHeuristic, kf⟩
    else resolvePhase flight kf history
  | none => resolvePhase flight kf history

/-- Ladder rung 3: vertical-rate integration, range-checked (entered only
when the observation carries a vertical rate). -/
noncomputable def resolveRateOnward (flight : Flight) (kf : KalmanState)
    (history : List Flight) : ResolvedAltitude :=
  match flight.vertical_rate with
  | some _ =>
    let ia := integrateVerticalRate flight history
    if isReasonableAltitude ia then ⟨ia, .rateIntegrated, kf⟩
    else resolveVelocityOnward flight kf history
  | none => resolveVelocityOnward flight kf history

/-- Ladder rung 2: `kalman_filter.predict(1.0)`, range-checked.  The
mutated filter is kept whether or not the prediction is accepted. -/
noncomputable def resolveKalmanOnward (flight : Flight) (kf : KalmanState)
    (history : List Flight) : ResolvedAltitude :=
  let kf2 := kf.predict 1
  if isReasonableAltitude kf2.state.x then ⟨kf2.state.x, .filterPredicted, kf2⟩
  else resolveRateOnward flight kf2 history

/-- Ladder rung 1b: a positive geometric altitude is fed to `update` and
returned as-is. -/
noncomputable def resolveGeoOnward (flight : Flight) (kf : KalmanState)
    (history : List Flight) (dt : ℝ) : ResolvedAltitude :=
  match flight.geo_altitude with
  | some g =>
    if 0 < g then ⟨g, .measuredGeo, kf.update g flight.vertical_rate none dt⟩
    else resolveKalmanOnward flight kf history
  | none => resolveKalmanOnward flight kf history

/-- `_predict_missing_altitude(flight, flight_id)` — the fallback ladder,
first success wins.  `kf` and `history` are the per-key filter and history
the method reads from `self`; `dt` is the elapsed time its `update` calls
would derive from the wall clock (1.0 for a first update). -/
noncomputable def predictMissingAltitude (flight : Flight) (kf : KalmanState)
    (history : List Flight) (dt : ℝ) : ResolvedAltitude :=
  match flight.baro_altitude with
  | some b =>
    if 0 < b then ⟨b, .measuredBaro, kf.update b flight.vertical_rate none dt⟩
    else resolveGeoOnward flight kf history dt
  | none => resolveGeoOnward flight kf history dt

/-! ### C1 — range of the resolved altitude -/

theorem isReasonable_bounds {a : ℝ} (h : isReasonableAltitude a = true) :
    0 ≤ a ∧ a ≤ 50000 := by
  simpa [isReasonableAltitude] using h

theorem resolvePhase_range (flight : Flight) (kf : KalmanState)
    (history : List Flight) :
    0 ≤ (resolvePhase flight kf history).value ∧
    (resolvePhase flight kf history).value ≤ 50000 := by
  unfold resolvePhase estimateFromFlightPhase
  rcases history with _ | ⟨f, rest⟩
  · norm_num
  · simp only
    split_ifs <;> norm_num

theorem resolveVelocityOnward_range (flight : Flight) (kf : KalmanState)
    (history : List Flight) :
    0 ≤ (resolveVelocityOnward flight kf history).value ∧
    (resolveVelocityOnward flight kf history).value ≤ 50000 := by
  unfold resolveVelocityOnward
  rcases flight.velocity with _ | v
  · exact resolvePhase_range flight kf history
  · simp only
    split_ifs with h
    · simpa using isReasonable_bounds h
    · exact resolvePhase_range flight kf history

theorem resolveRateOnward_range (flight : Flight) (kf : KalmanState)
    (history : List Flight) :
    0 ≤ (resolveRateOnward flight kf history).value ∧
    (resolveRateOnward flight kf history).value ≤ 50000 := by
  unfold resolveRateOnward
  rcases flight.vertical_rate with _ | v
  · exact resolveVelocityOnward_range flight kf history
  · simp only
    split_ifs with h
    · simpa using isReasonable_bounds h
    · exact resolveVelocityOnward_range flight kf history

theorem resolveKalmanOnward_range (flight : Flight) (kf : KalmanState)
    (history : List Flight) :
    0 ≤ (resolveKalmanOnward flight kf history).value ∧
    (resolveKalmanOnward flight kf history).value ≤ 50000 := by
  unfold resolveKalmanOnward
  simp only
  split_ifs with h
  · simpa using isReasonable_bounds h
  · exact resolveRateOnward_range flight (kf.predict 1) history

/-- Claim C1, amended: every rung below the direct measurements returns an
altitude in `[0, 50000]`, and a direct barometric or geometric measurement
is returned exactly when it is positive — so the resolved altitude is
always nonnegative, but on the two measurement rungs it is only known to
be positive and can exceed 50000 (the range check is not applied there). -/
theorem c1_amended (flight : Flight) (kf : KalmanState) (history : List Flight)
    (dt : ℝ) :
    0 ≤ (predictMissingAltitude flight kf history dt).value ∧
    ((predictMissingAltitude flight kf history dt).provenance = .measuredBaro ∨
     (predictMissingAltitude flight kf history dt).provenance = .measuredGeo ∨
     (predictMissingAltitude flight kf history dt).value ≤ 50000) := by
  unfold predictMissingAltitude resolveGeoOnward
  rcases flight.baro_altitude with _ | b
  · rcases flight.geo_altitude with _ | g
    · simp only
      refine ⟨(resolveKalmanOnward_range flight kf history).1, Or.inr (Or.inr ?_)⟩
      exact (resolveKalmanOnward_range flight kf history).2
    · simp only
      split_ifs with h
      · exact ⟨le_of_lt h, Or.inr (Or.inl rfl)⟩
      · refine ⟨(resolveKalmanOnward_range flight kf history).1, Or.inr (Or.inr ?_)⟩
        exact (resolveKalmanOnward_range flight kf history).2
  · simp only
    split_ifs with h
    · exact ⟨le_of_lt h, Or.inl rfl⟩
    · rcases flight.geo_altitude with _ | g
      · simp only
        refine ⟨(resolveKalmanOnward_range flight kf history).1, Or.inr (Or.inr ?_)⟩
        exact (resolveKalmanOnward_range flight kf history).2
      · simp only
        split_ifs with h2
        · exact ⟨le_of_lt h2, Or.inr (Or.inl rfl)⟩
        · refine ⟨(resolveKalmanOnward_range flight kf history).1, Or.inr (Or.inr ?_)⟩
          exact (resolveKalmanOnward_range flight kf history).2

/-- Claim C1 (as stated) fails: an observation reporting a barometric
altitude of 60000 is returned as 60000 — outside `[0, 50000]` — because
the measurement rung checks only positivity. -/
theorem c1_counterexample :
    (predictMissingAltitude
      ⟨"abc123", "UAL1", some (-122.4), some 37.7, some 60000, false,
       some 300, some 90, some 0, none⟩
      KalmanState.init [] 1).value = 60000 ∧
    ¬ ((predictMissingAltitude
      ⟨"abc123", "UAL1", some (-122.4), some 37.7, some 60000, false,
       some 300, some 90, some 0, none⟩
      KalmanState.init [] 1).value ≤ 50000) := by
  have hv : (predictMissingAltitude
      ⟨"abc123", "UAL1", some (-122.4), some 37.7, some 60000, false,
       some 300, some 90, some 0, none⟩
      KalmanState.init [] 1).value = 60000 := by
    simp [predictMissingAltitude]
  exact ⟨hv, by rw [hv]; norm_num⟩

/-! ### C2 — a first-seen observation with no altitude -/

theorem predictMissing_fresh_noAlt (flight : Flight) (history : List Flight)
    (dt : ℝ) (hb : flight.baro_altitude = none) (hg : flight.geo_altitude = none) :
    (predictMissingAltitude flight KalmanState.init history dt).value = 35000 ∧
    (predictMissingAltitude flight KalmanState.init history dt).provenance
      = .filterPredicted := by
  have hx : (KalmanState.init.predict 1).state.x = 35000 := by
    simp [KalmanState.init, KalmanState.predict, Fmat, Mat2.mulVec]
  have hr : isReasonableAltitude (35000 : ℝ) = true := by
    simp only [isReasonableAltitude, decide_eq_true_eq]
    norm_num
  unfold predictMissingAltitude resolveGeoOnward resolveKalmanOnward
  rw [hb, hg]
  simp [hx, hr]

/-- Claim C2, amended: for an aircraft seen for the first time (fresh
filter) whose observation carries neither barometric nor geometric
altitude, the ladder stops at the Kalman rung: the fresh filter's
`predict(1.0)` returns its initial default 35000, which passes the
`[0, 50000]` check, so the resolved altitude is 35000 with provenance
`filter-predicted` — the velocity heuristic is never consulted. -/
theorem c2_amended (flight : Flight) (history : List Flight) (dt : ℝ)
    (hb : flight.baro_altitude = none) (hg : flight.geo_altitude = none) :
    (predictMissingAltitude flight KalmanState.init history dt).value = 35000 ∧
    (predictMissingAltitude flight KalmanState.init history dt).provenance
      = .filterPredicted :=
  predictMissing_fresh_noAlt flight history dt hb hg

/-- Claim C2 (as stated) fails on the concrete scenario it describes: the
observation with `lat 37.7, lon −122.4`, no altitude, ground speed 300,
track 90, vertical rate 0, for a first-seen aircraft resolves to 35000
with provenance `filter-predicted`, not to 25000 with provenance
`velocity-heuristic`. -/
theorem c2_counterexample :
    (predictMissingAltitude
      ⟨"abc123", "UAL1", some (-122.4), some 37.7, none, false,
       some 300, some 90, some 0, none⟩
      KalmanState.init
      [⟨"abc123", "UAL1", some (-122.4), some 37.7, none, false,
        some 300, some 90, some 0, none⟩] 1).value = 35000 ∧
    (predictMissingAltitude
      ⟨"abc123", "UAL1", some (-122.4), some 37.7, none, false,
       some 300, some 90, some 0, none⟩
      KalmanState.init
      [⟨"abc123", "UAL1", some (-122.4), some 37.7, none, false,
        some 300, some 90, some 0, none⟩] 1).provenance = .filterPredicted ∧
    ¬ ((predictMissingAltitude
      ⟨"abc123", "UAL1", some (-122.4), some 37.7, none, false,
       some 300, some 90, some 0, none⟩
      KalmanState.init
      [⟨"abc123", "UAL1", some (-122.4), some 37.7, none, false,
        some 300, some 90, some 0, none⟩] 1).value = 25000 ∧
      (predictMissingAltitude
      ⟨"abc123", "UAL1", some (-122.4), some 37.7, none, false,
       some 300, some 90, some 0, none⟩
      KalmanState.init
      [⟨"abc123", "UAL1", some (-122.4), some 37.7, none, false,
        some 300, some 90, some 0, none⟩] 1).provenance = .velocityHeuristic) := by
  have h := predictMissing_fresh_noAlt
    ⟨"abc123", "UAL1", some (-122.4), some 37.7, none, false,
     some 300, some 90, some 0, none⟩
    [⟨"abc123", "UAL1", some (-122.4), some 37.7, none, false,
      some 300, some 90, some 0, none⟩] 1 rfl rfl
  refine ⟨h.1, h.2, ?_⟩
  rintro ⟨hv, -⟩
  rw [h.1] at hv
  norm_num at hv

/-- Witness for C2: the amended theorem applied at the claim's concrete
first-seen observation. -/
theorem c2_witness :
    (predictMissingAltitude
      ⟨"abc123", "UAL1", some (-122.4), some 37.7, none, false,
       some 300, some 90, some 0, none⟩
      KalmanState.init [] 1).value = 35000 ∧
    (predictMissingAltitude
      ⟨"abc123", "UAL1", some (-122.4), some 37.7, none, false,
       some 300, some 90, some 0, none⟩
      KalmanState.init [] 1).provenance = .filterPredicted :=
  c2_amended
    ⟨"abc123", "UAL1", some (-122.4), some 37.7, none, false,
     some 300, some 90, some 0, none⟩ [] 1 rfl rfl

/-! ### C8 — history bounds -/

/-- The per-key history update of `_enhance_flight_data` (flights.py lines
303–306): append the flight, then keep only the last 10 entries when the
list has grown past 10. -/
def updateFlightHistory (history : List Flight) (flight : Flight) : List Flight :=
  let h := history ++ [flight]
  if 10 < h.length then h.drop (h.length - 10) else h

/-- Iterated `predict(1)` (any concrete sequence of calls works; this is
the shortest). -/
noncomputable def predictIter : ℕ → KalmanState
  | 0 => KalmanState.init
  | n + 1 => (predictIter n).predict 1

theorem predict_history_grows (kf : KalmanState) (dt : ℝ) :
    (kf.predict dt).predictionHistory.length = kf.predictionHistory.length + 1 := by
  simp [KalmanState.predict]

theorem update_history_grows (kf : KalmanState) (a : ℝ) (mvr unc : Option ℝ) (dt : ℝ) :
    (KalmanState.update a mvr unc dt kf).measurementHistory.length
      = kf.measurementHistory.length + 1 ∧
    (KalmanState.update a mvr unc dt kf).predictionHistory.length
      = kf.predictionHistory.length + 1 := by
  constructor <;> simp [KalmanState.update, KalmanState.predict]

/-- Claim C8 (as stated) fails: the `AltitudeKalmanFilter` history logs
are never truncated.  After 11 `predict` calls on a fresh filter the
prediction history holds 11 entries, not at most 10. -/
theorem c8_counterexample :
    (predictIter 11).predictionHistory.length = 11 ∧
    ¬ (predictIter 11).predictionHistory.length ≤ 10 := by
  have h : (predictIter 11).predictionHistory.length = 11 := by
    simp [predictIter, KalmanState.predict, KalmanState.init]
  exact ⟨h, by rw [h]; norm_num⟩

/-- Claim C8, amended: the capacity-10, oldest-evicted bound holds for the
per-key `flight_history` ring kept by the enrichment pipeline — one
`_enhance_flight_data` pass always leaves it with at most 10 entries, the
newest kept — but not for the filter's own `measurement_history` and
`prediction_history`, which grow by exactly one entry on every `predict`
and `update` call with no eviction. -/
theorem c8_amended (history : List Flight) (flight : Flight) (kf : KalmanState)
    (a dt : ℝ) (mvr unc : Option ℝ) :
    (updateFlightHistory history flight).length ≤ 10 ∧
    (kf.predict dt).predictionHistory.length = kf.predictionHistory.length + 1 ∧
    (KalmanState.update a mvr unc dt kf).measurementHistory.length
      = kf.measurementHistory.length + 1 := by
  refine ⟨?_, predict_history_grows kf dt, (update_history_grows kf a mvr unc dt).1⟩
  unfold updateFlightHistory
  simp only
  split_ifs with h
  · simp only [List.length_drop]
    omega
  · omega

/-! ### FlightTrajectoryPredictor (kalman_filter.py, lines 121–297) -/

/-- A 3-vector (`np.array([x, y, z])`). -/
structure Vec3 where
  x : ℝ
  y : ℝ
  z : ℝ

/-- Componentwise scaling `v * c` (numpy broadcasting). -/
noncomputable def Vec3.scale (v : Vec3) (cf : ℝ) : Vec3 :=
  ⟨v.x * cf, v.y * cf, v.z * cf⟩

/-- Euclidean norm (`np.linalg.norm`). -/
noncomputable def norm3 (v : Vec3) : ℝ :=
  Real.sqrt (v.x ^ 2 + v.y ^ 2 + v.z ^ 2)

/-- `earth_radius = 6371000` m. -/
def earthRadius : ℝ := 6371000

/-- `_lat_lon_alt_to_3d`: spherical geodetic-to-Cartesian conversion. -/
noncomputable def latLonAltTo3d (lat lon alt : ℝ) : Vec3 :=
  let latr := radians lat
  let lonr := radians lon
  ⟨(earthRadius + alt) * Real.cos latr * Real.cos lonr,
   (earthRadius + alt) * Real.cos latr * Real.sin lonr,
   (earthRadius + alt) * Real.sin latr⟩

/-- `_3d_to_lat_lon_alt`: `lat = asin(z/|pos|)`, `lon = atan2(y, x)` (in
degrees), `alt = |pos| − R`. -/
noncomputable def threeDToLatLonAlt (v : Vec3) : ℝ × ℝ × ℝ :=
  (degrees (Real.arcsin (v.z / norm3 v)),
   degrees (atan2 v.y v.x),
   norm3 v - earthRadius)

/-- `_calculate_velocity_vector`: `[v·cos(track), v·sin(track),
vertical_rate]` — the source adds this local north/east/up triple directly
to the Earth-centered Cartesian position, and the embedding preserves
that. -/
noncomputable def calculateVelocityVector (velocity track verticalRate : ℝ) : Vec3 :=
  let trackr := radians track
  ⟨velocity * Real.cos trackr, velocity * Real.sin trackr, verticalRate⟩

/-- `_get_altitude_correction_factor`: the five-band lookup. -/
noncomputable def altitudeCorrectionFactor (altitude : ℝ) : ℝ :=
  if altitude < 1000 then 1
  else if altitude < 5000 then 1.001
  else if altitude < 15000 then 1.002
  else if altitude < 30000 then 1.003
  else 1.004

/-- The first two steps of `_predict_position_enhanced`: linear
extrapolation `pos + v·t` followed by the altitude-band scaling. -/
noncomputable def predictedScaled (initialPos velocityVector : Vec3) (t altitude : ℝ) :
    Vec3 :=
  let predicted : Vec3 := ⟨initialPos.x + velocityVector.x * t,
                           initialPos.y + velocityVector.y * t,
                           initialPos.z + velocityVector.z * t⟩
  predicted.scale (altitudeCorrectionFactor altitude)

/-- `_predict_position_enhanced`: the scaled extrapolation, radially
projected back onto the sphere when it falls below the surface.  The
`speed` argument is unused in the source and kept here. -/
noncomputable def predictPositionEnhanced (initialPos velocityVector : Vec3)
    (t altitude speed : ℝ) : Vec3 :=
  let sc := predictedScaled initialPos velocityVector t altitude
  let dist := norm3 sc
  if dist < earthRadius then sc.scale (earthRadius / dist) else sc

/-- `_calculate_distance`: haversine horizontal distance combined with the
absolute altitude difference by a Pythagorean sum. -/
noncomputable def calculateDistance (p1 p2 : ℝ × ℝ × ℝ) : ℝ :=
  let lat1 := p1.1; let lon1 := p1.2.1; let alt1 := p1.2.2
  let lat2 := p2.1; let lon2 := p2.2.1; let alt2 := p2.2.2
  let lat1r := radians lat1
  let lat2r := radians lat2
  let dlat := radians (lat2 - lat1)
  let dlon := radians (lon2 - lon1)
  let a := Real.sin (dlat / 2) ^ 2 +
    Real.cos lat1r * Real.cos lat2r * Real.sin (dlon / 2) ^ 2
  let cc := 2 * Real.arcsin (Real.sqrt a)
  let horizontal := earthRadius * cc
  let vertical := |alt2 - alt1|
  Real.sqrt (horizontal ^ 2 + vertical ^ 2)

/-- One point of the forecast (`trajectory_point` dict). -/
structure TrajectoryPoint where
  latitude : ℝ
  longitude : ℝ
  altitude : ℝ
  time_offset : ℝ
  distance_from_current : ℝ
  bearing : ℝ

/-- Number of samples of `np.arange(0, T, s)`: `⌈T/s⌉` (every `k·s` with
`k·s < T`). -/
noncomputable def arangeLen (T s : ℝ) : ℕ := (Int.ceil (T / s)).toNat

/-- `np.arange(0, T, s)` in exact arithmetic: `[0, s, 2s, …)` below `T`. -/
noncomputable def arange (T s : ℝ) : List ℝ :=
  (List.range (arangeLen T s)).map fun i : ℕ => (i : ℝ) * s

/-- Faithfulness of `arange`: for a positive step its members are exactly
the grid points `i·s` strictly below `T`. -/
theorem arange_mem_iff {T s : ℝ} (hs : 0 < s) (x : ℝ) :
    x ∈ arange T s ↔ ∃ i : ℕ, (i : ℝ) * s = x ∧ (i : ℝ) * s < T := by
  constructor
  · intro hx
    unfold arange arangeLen at hx
    obtain ⟨i, hi, hfx⟩ := List.mem_map.1 hx
    rw [List.mem_range, Int.lt_toNat] at hi
    have h2 := Int.lt_ceil.1 hi
    refine ⟨i, hfx, ?_⟩
    calc (i : ℝ) * s < (T / s) * s := by
          apply mul_lt_mul_of_pos_right _ hs
          exact_mod_cast h2
      _ = T := div_mul_cancel₀ T hs.ne.symm
  · rintro ⟨i, heq, hlt⟩
    unfold arange arangeLen
    apply List.mem_map.2
    refine ⟨i, ?_, heq⟩
    rw [List.mem_range, Int.lt_toNat, Int.lt_ceil]
    push_cast
    rw [lt_div_iff₀ hs]
    exact_mod_cast hlt

/-- The loop body of `predict_trajectory` at offset `t`, on the flight's
derived scalars. -/
noncomputable def trajectoryPoint (lat lon alt vel trk vr : ℝ) (t : ℝ) :
    TrajectoryPoint :=
  let currentPos := latLonAltTo3d lat lon alt
  let velocityVector := calculateVelocityVector vel trk vr
  let predictedPos := predictPositionEnhanced currentPos velocityVector t alt vel
  let g := threeDToLatLonAlt predictedPos
  ⟨g.1, g.2.1, g.2.2, t,
   calculateDistance (lat, lon, alt) (g.1, g.2.1, g.2.2),
   calculateBearing lat lon g.1 g.2.1⟩

/-- `predict_trajectory(flight, prediction_time, time_step)`.  The
source's `flight["latitude"]`/`flight["longitude"]` reads require a
present position (a `None` raises and is caught by the caller, see
`enhanceFlightData`); the remaining inputs default through Python `or`:
`alt = baro or geo or 35000`, `velocity = velocity or 0`,
`track = true_track or 0`, `vertical_rate = vertical_rate or 0`. -/
noncomputable def predictTrajectory (lat lon : ℝ)
    (baro geo velocity track verticalRate : Option ℝ) (T s : ℝ) :
    List TrajectoryPoint :=
  (arange T s).map
    (trajectoryPoint lat lon
      (pyOrFloat baro (pyOrFloat geo 35000))
      (pyOrFloat velocity 0)
      (pyOrFloat track 0)
      (pyOrFloat verticalRate 0))

/-- An enriched record produced by `_enhance_flight_data`. -/
structure EnhancedFlight where
  flight : Flight
  predicted_altitude : ℝ
  altitude_confidence : ℝ
  has_predicted_altitude : Bool
  predicted_trajectory : List TrajectoryPoint

/-- `_enhance_flight_data` (flights.py lines 291–328): lazily create the
per-key filter, append to the bounded history ring, resolve the altitude
through the ladder, and attach the first 10 points of the 60 s / 2 s
forecast (`trajectory[:10]`); a missing position makes `predict_trajectory`
raise and the `except` branch stores an empty trajectory. -/
noncomputable def enhanceFlightData (flight : Flight) (kf : Option KalmanState)
    (history : List Flight) (dt : ℝ) :
    EnhancedFlight × KalmanState × List Flight :=
  let kf0 := kf.getD KalmanState.init
  let hist2 := updateFlightHistory history flight
  let r := predictMissingAltitude flight kf0 hist2 dt
  let traj := match flight.latitude, flight.longitude with
    | some la, some lo =>
      (predictTrajectory la lo flight.baro_altitude flight.geo_altitude
        flight.velocity flight.true_track flight.vertical_rate 60 2).take 10
    | _, _ => []
  (⟨flight, r.value, r.filter.getConfidence,
    decide (flight.baro_altitude = none) && decide (flight.geo_altitude = none),
    traj⟩, r.filter, hist2)

/-! ### C7 — forecast length and the stored trajectory -/

theorem predictTrajectory_length (lat lon : ℝ) (baro geo velocity track vr : Option ℝ)
    (T s : ℝ) :
    (predictTrajectory lat lon baro geo velocity track vr T s).length
      = arangeLen T s := by
  simp [predictTrajectory, arange]

theorem arangeLen_60_2 : arangeLen 60 2 = 30 := by
  unfold arangeLen
  have h : (60 : ℝ) / 2 = ((30 : ℕ) : ℝ) := by norm_num
  rw [h, Int.ceil_natCast]
  rfl

/-- Claim C7, amended: `predict_trajectory` does return exactly
`⌈horizon/step⌉` points (30 for the default 60 s / 2 s), but the
trajectory stored in each enriched record is truncated to the first 10
points (`trajectory[:10]`), so the stored length is 10, not
`horizon/step`. -/
theorem c7_amended (lat lon : ℝ) (baro geo velocity track vr : Option ℝ)
    (T s : ℝ) (hT : 0 < T) (hs : 0 < s)
    (flight : Flight) (kf : Option KalmanState) (history : List Flight) (dt : ℝ)
    (la lo : ℝ) (hla : flight.latitude = some la) (hlo : flight.longitude = some lo) :
    ((predictTrajectory lat lon baro geo velocity track vr T s).length : ℤ)
      = Int.ceil (T / s) ∧
    (enhanceFlightData flight kf history dt).1.predicted_trajectory.length = 10 := by
  constructor
  · rw [predictTrajectory_length]
    unfold arangeLen
    have hpos : (0 : ℤ) < Int.ceil (T / s) := Int.ceil_pos.2 (div_pos hT hs)
    exact Int.toNat_of_nonneg hpos.le
  · unfold enhanceFlightData
    rw [hla, hlo]
    simp only [List.length_take, predictTrajectory_length, arangeLen_60_2]
    rfl

/-- Witness for C7 at a concrete observation with a position. -/
theorem c7_witness :
    ((predictTrajectory 37.7 (-122.4) (some 11000) none (some 250) (some 90)
        (some 0) 60 2).length : ℤ) = Int.ceil ((60 : ℝ) / 2) ∧
    (enhanceFlightData
      ⟨"abc123", "UAL1", some (-122.4), some 37.7, some 11000, false,
       some 250, some 90, some 0, none⟩ none [] 1).1.predicted_trajectory.length
      = 10 :=
  c7_amended 37.7 (-122.4) (some 11000) none (some 250) (some 90) (some 0) 60 2
    (by norm_num) (by norm_num)
    ⟨"abc123", "UAL1", some (-122.4), some 37.7, some 11000, false,
     some 250, some 90, some 0, none⟩ none [] 1 37.7 (-122.4) rfl rfl

/-- Claim C7 (as stated) fails on its second half: for the default 60 s
horizon with 2 s step, `predict_trajectory` produces 30 points but the
enriched record stores only the first 10 of them. -/
theorem c7_counterexample :
    (predictTrajectory 37.7 (-122.4) (some 11000) none (some 250) (some 90)
        (some 0) 60 2).length = 30 ∧
    (enhanceFlightData
      ⟨"abc123", "UAL1", some (-122.4), some 37.7, some 11000, false,
       some 250, some 90, some 0, none⟩ none [] 1).1.predicted_trajectory.length
      = 10 ∧
    ¬ (enhanceFlightData
      ⟨"abc123", "UAL1", some (-122.4), some 37.7, some 11000, false,
       some 250, some 90, some 0, none⟩ none [] 1).1.predicted_trajectory.length
      = 30 := by
  have h1 : (predictTrajectory 37.7 (-122.4) (some 11000) none (some 250) (some 90)
      (some 0) 60 2).length = 30 := by
    rw [predictTrajectory_length, arangeLen_60_2]
  have h2 : (enhanceFlightData
      ⟨"abc123", "UAL1", some (-122.4), some 37.7, some 11000, false,
       some 250, some 90, some 0, none⟩ none [] 1).1.predicted_trajectory.length
      = 10 := by
    unfold enhanceFlightData
    simp only [List.length_take, predictTrajectory_length, arangeLen_60_2]
    rfl
  exact ⟨h1, h2, by rw [h2]; norm_num⟩

/-! ### C4 — the no-motion forecast -/

theorem radians_degrees_inverse (x : ℝ) : degrees (radians x) = x := by
  unfold degrees radians
  field_simp

theorem norm3_latLonAlt (lat lon alt : ℝ) (h : 0 ≤ earthRadius + alt) :
    norm3 (latLonAltTo3d lat lon alt) = earthRadius + alt := by
  unfold norm3 latLonAltTo3d
  simp only
  have h1 := Real.sin_sq_add_cos_sq (radians lat)
  have h2 := Real.sin_sq_add_cos_sq (radians lon)
  have key : ((earthRadius + alt) * Real.cos (radians lat) * Real.cos (radians lon)) ^ 2
      + ((earthRadius + alt) * Real.cos (radians lat) * Real.sin (radians lon)) ^ 2
      + ((earthRadius + alt) * Real.sin (radians lat)) ^ 2
      = (earthRadius + alt) ^ 2 := by
    linear_combination ((earthRadius + alt) ^ 2 * Real.cos (radians lat) ^ 2) * h2
      + (earthRadius + alt) ^ 2 * h1
  rw [key, Real.sqrt_sq h]

theorem radians_lt_pi_div_two {lat : ℝ} (h : lat < 90) : radians lat < Real.pi / 2 := by
  unfold radians
  have hpi := Real.pi_pos
  rw [div_lt_iff (by norm_num : (0:ℝ) < 180)] at *
  nlinarith

theorem neg_pi_div_two_lt_radians {lat : ℝ} (h : -90 < lat) :
    -(Real.pi / 2) < radians lat := by
  unfold radians
  have hpi := Real.pi_pos
  rw [lt_div_iff (by norm_num : (0:ℝ) < 180)]
  nlinarith

/-- Round trip of the coordinate conversions on the domain where they are
mutually inverse: `_3d_to_lat_lon_alt (_lat_lon_alt_to_3d lat lon alt)`
returns `(lat, lon, alt)` for latitudes strictly inside `(−90°, 90°)`,
longitudes in `(−180°, 180°]` and nonnegative altitude. -/
theorem threeD_roundtrip (lat lon alt : ℝ)
    (hlat1 : -90 < lat) (hlat2 : lat < 90)
    (hlon1 : -180 < lon) (hlon2 : lon ≤ 180) (halt : 0 ≤ alt) :
    threeDToLatLonAlt (latLonAltTo3d lat lon alt) = (lat, lon, alt) := by
  have hR : (0 : ℝ) < earthRadius := by norm_num [earthRadius]
  have hk : 0 < earthRadius + alt := by linarith
  have hnorm := norm3_latLonAlt lat lon alt hk.le
  have hpi := Real.pi_pos
  have hlatr1 : -(Real.pi / 2) < radians lat := neg_pi_div_two_lt_radians hlat1
  have hlatr2 : radians lat < Real.pi / 2 := radians_lt_pi_div_two hlat2
  have hcoslat : 0 < Real.cos (radians lat) :=
    Real.cos_pos_of_mem_Ioo ⟨hlatr1, hlatr2⟩
  have hlonr1 : -Real.pi < radians lon := by
    have hmul : 0 < (lon + 180) * Real.pi := mul_pos (by linarith) hpi
    unfold radians
    nlinarith [hmul]
  have hlonr2 : radians lon ≤ Real.pi := by
    have hmul : 0 ≤ (180 - lon) * Real.pi := mul_nonneg (by linarith) hpi.le
    unfold radians
    nlinarith [hmul]
  unfold threeDToLatLonAlt latLonAltTo3d
  rw [show latLonAltTo3d lat lon alt =
    ⟨(earthRadius + alt) * Real.cos (radians lat) * Real.cos (radians lon),
     (earthRadius + alt) * Real.cos (radians lat) * Real.sin (radians lon),
     (earthRadius + alt) * Real.sin (radians lat)⟩ from rfl] at hnorm
  simp only [hnorm]
  refine Prod.ext ?_ (Prod.ext ?_ ?_)
  · show degrees (Real.arcsin
      ((earthRadius + alt) * Real.sin (radians lat) / (earthRadius + alt))) = lat
    rw [mul_div_cancel_left₀ _ hk.ne.symm,
      Real.arcsin_sin (by linarith) (by linarith), radians_degrees_inverse]
  · show degrees (atan2 ((earthRadius + alt) * Real.cos (radians lat) * Real.sin (radians lon))
      ((earthRadius + alt) * Real.cos (radians lat) * Real.cos (radians lon))) = lon
    have harg : atan2 ((earthRadius + alt) * Real.cos (radians lat) * Real.sin (radians lon))
        ((earthRadius + alt) * Real.cos (radians lat) * Real.cos (radians lon))
        = radians lon := by
      unfold atan2
      have hz : (⟨(earthRadius + alt) * Real.cos (radians lat) * Real.cos (radians lon),
          (earthRadius + alt) * Real.cos (radians lat) * Real.sin (radians lon)⟩ : ℂ)
          = ((earthRadius + alt) * Real.cos (radians lat) : ℝ) *
            (Complex.cos (radians lon) + Complex.sin (radians lon) * Complex.I) := by
        apply Complex.ext <;>
          simp [Complex.mul_re, Complex.mul_im, Complex.cos_ofReal_re,
            Complex.sin_ofReal_re, mul_assoc]
      rw [hz, Complex.arg_real_mul _ (by positivity),
        Complex.arg_cos_add_sin_mul_I ⟨hlonr1, hlonr2⟩]
    rw [harg, radians_degrees_inverse]
  · show earthRadius + alt - earthRadius = alt
    ring

theorem calculateDistance_self (p : ℝ × ℝ × ℝ) : calculateDistance p p = 0 := by
  unfold calculateDistance
  simp [radians, sub_self]

theorem predictedScaled_zero_vel (pos : Vec3) (trk t alt : ℝ) (halt : alt < 1000) :
    predictedScaled pos (calculateVelocityVector 0 trk 0) t alt = pos := by
  unfold predictedScaled calculateVelocityVector Vec3.scale altitudeCorrectionFactor
  simp only [if_pos halt]
  cases pos
  simp only [Vec3.mk.injEq]
  refine ⟨by ring, by ring, by ring⟩

/-- Claim C4, amended: with zero derived velocity and zero vertical rate
and a starting altitude below 1000 (where the altitude-band correction
factor is exactly 1), every forecast point equals the starting position —
same latitude, longitude and altitude, with distance 0 — for latitudes in
`(−90°, 90°)`, longitudes in `(−180°, 180°]` and nonnegative altitude.
For starting altitudes of 1000 and above the correction factor exceeds 1
and radially rescales every point, changing its altitude, which is what
the counterexample exhibits; the claim as stated therefore only survives
restricted to the factor-1 band. -/
theorem c4_amended (lat lon : ℝ) (baro geo velocity track vr : Option ℝ)
    (T s : ℝ)
    (hlat1 : -90 < lat) (hlat2 : lat < 90) (hlon1 : -180 < lon) (hlon2 : lon ≤ 180)
    (hvel : pyOrFloat velocity 0 = 0) (hvr : pyOrFloat vr 0 = 0)
    (halt0 : 0 ≤ pyOrFloat baro (pyOrFloat geo 35000))
    (halt1 : pyOrFloat baro (pyOrFloat geo 35000) < 1000) :
    ∀ p ∈ predictTrajectory lat lon baro geo velocity track vr T s,
      p.latitude = lat ∧ p.longitude = lon ∧
      p.altitude = pyOrFloat baro (pyOrFloat geo 35000) ∧
      p.distance_from_current = 0 := by
  intro p hp
  unfold predictTrajectory at hp
  obtain ⟨t, ht, rfl⟩ := List.mem_map.1 hp
  rw [hvel, hvr]
  set alt := pyOrFloat baro (pyOrFloat geo 35000) with halt
  have hR : (0 : ℝ) < earthRadius := by norm_num [earthRadius]
  have hsc : predictedScaled (latLonAltTo3d lat lon alt)
      (calculateVelocityVector 0 (pyOrFloat track 0) 0) t alt
      = latLonAltTo3d lat lon alt :=
    predictedScaled_zero_vel _ _ _ _ halt1
  have hnorm : norm3 (latLonAltTo3d lat lon alt) = earthRadius + alt :=
    norm3_latLonAlt lat lon alt (by linarith)
  have hpp : predictPositionEnhanced (latLonAltTo3d lat lon alt)
      (calculateVelocityVector 0 (pyOrFloat track 0) 0) t alt 0
      = latLonAltTo3d lat lon alt := by
    unfold predictPositionEnhanced
    simp only [hsc, hnorm]
    rw [if_neg (not_lt.2 (by linarith))]
  have hg := threeD_roundtrip lat lon alt hlat1 hlat2 hlon1 hlon2 halt0
  unfold trajectoryPoint
  simp only [hpp, hg]
  exact ⟨trivial, trivial, trivial, calculateDistance_self _⟩

/-- Witness for C4: a stationary aircraft at `lat 0, lon 0, baro 500`
keeps every forecast point at the start. -/
theorem c4_witness :
    ∃ p ∈ predictTrajectory 0 0 (some 500) none (some 0) none none 60 2,
      p.latitude = 0 ∧ p.longitude = 0 ∧ p.altitude = 500 ∧
      p.distance_from_current = 0 := by
  have hpy : pyOrFloat (some 500) (pyOrFloat none 35000) = 500 := by
    norm_num [pyOrFloat]
  have hmem : (0 : ℝ) ∈ arange 60 2 :=
    (arange_mem_iff (by norm_num) 0).2 ⟨0, by norm_num, by norm_num⟩
  have hmem2 : trajectoryPoint 0 0 (pyOrFloat (some 500) (pyOrFloat none 35000))
      (pyOrFloat (some 0) 0) (pyOrFloat none 0) (pyOrFloat none 0) 0
      ∈ predictTrajectory 0 0 (some 500) none (some 0) none none 60 2 := by
    unfold predictTrajectory
    exact List.mem_map.2 ⟨0, hmem, rfl⟩
  refine ⟨_, hmem2, ?_⟩
  have h := c4_amended 0 0 (some 500) none (some 0) none none 60 2
    (by norm_num) (by norm_num) (by norm_num) (by norm_num)
    (by norm_num [pyOrFloat]) (by norm_num [pyOrFloat])
    (by rw [hpy]; norm_num) (by rw [hpy]; norm_num) _ hmem2
  exact ⟨h.1, h.2.1, h.2.2.1.trans hpy, h.2.2.2⟩

theorem pyOrFloat_some_ne {v d : ℝ} (h : v ≠ 0) : pyOrFloat (some v) d = v := by
  simp [pyOrFloat, h]

theorem pyOrFloat_some_zero (d : ℝ) : pyOrFloat (some 0) d = d := by
  simp [pyOrFloat]

theorem pyOrFloat_none (d : ℝ) : pyOrFloat none d = d := rfl

theorem latLonAlt_zero_zero (alt : ℝ) :
    latLonAltTo3d 0 0 alt = ⟨earthRadius + alt, 0, 0⟩ := by
  unfold latLonAltTo3d radians
  simp

/-- Claim C4 (as stated) fails: a stationary aircraft at `lat 0, lon 0`
with barometric altitude 35000 gets the altitude-band correction factor
1.004, so already the first forecast point (`t = 0`) has altitude
`1.004·(R+35000) − R = 60624 ≠ 35000` — the trajectory points do not
equal the starting position. -/
theorem c4_counterexample :
    ∃ p ∈ predictTrajectory 0 0 (some 35000) none (some 0) (some 0) (some 0) 60 2,
      ¬ p.altitude = 35000 := by
  have hpy1 : pyOrFloat (some (35000 : ℝ)) (pyOrFloat none 35000) = 35000 :=
    pyOrFloat_some_ne (by norm_num)
  have hpy0 : pyOrFloat (some (0 : ℝ)) 0 = 0 := pyOrFloat_some_zero 0
  have hvv : calculateVelocityVector 0 0 0 = ⟨0, 0, 0⟩ := by
    unfold calculateVelocityVector
    simp
  have hsc : predictedScaled ⟨earthRadius + 35000, 0, 0⟩ ⟨0, 0, 0⟩ 0 35000
      = ⟨(earthRadius + 35000) * 1.004, 0, 0⟩ := by
    unfold predictedScaled altitudeCorrectionFactor Vec3.scale
    rw [if_neg (by norm_num : ¬ (35000 : ℝ) < 1000),
        if_neg (by norm_num : ¬ (35000 : ℝ) < 5000),
        if_neg (by norm_num : ¬ (35000 : ℝ) < 15000),
        if_neg (by norm_num : ¬ (35000 : ℝ) < 30000)]
    simp only [Vec3.mk.injEq]
    refine ⟨by ring, by ring, by ring⟩
  have hval : (earthRadius + 35000) * 1.004 = (6431624 : ℝ) := by
    norm_num [earthRadius]
  have hnorm : norm3 ⟨(6431624 : ℝ), 0, 0⟩ = 6431624 := by
    unfold norm3
    rw [show ((6431624 : ℝ) ^ 2 + 0 ^ 2 + 0 ^ 2) = 6431624 ^ 2 by norm_num,
      Real.sqrt_sq (by norm_num)]
  have hpp : predictPositionEnhanced ⟨earthRadius + 35000, 0, 0⟩ ⟨0, 0, 0⟩ 0 35000 0
      = ⟨(6431624 : ℝ), 0, 0⟩ := by
    unfold predictPositionEnhanced
    simp only [hsc, hval, hnorm]
    rw [if_neg (by norm_num [earthRadius])]
  have halt : (trajectoryPoint 0 0 35000 0 0 0 0).altitude = 60624 := by
    unfold trajectoryPoint
    simp only [latLonAlt_zero_zero, hvv, hpp]
    unfold threeDToLatLonAlt
    simp only [hnorm]
    norm_num [earthRadius]
  have hmem : (0 : ℝ) ∈ arange 60 2 :=
    (arange_mem_iff (by norm_num) 0).2 ⟨0, by norm_num, by norm_num⟩
  refine ⟨_, List.mem_map.2 ⟨0, hmem, rfl⟩, ?_⟩
  rw [hpy1, hpy0]
  rw [halt]
  norm_num

/-! ### C10 — forecast altitudes are nonnegative -/

theorem norm3_nonneg (v : Vec3) : 0 ≤ norm3 v := Real.sqrt_nonneg _

theorem norm3_scale (v : Vec3) (cf : ℝ) : norm3 (v.scale cf) = |cf| * norm3 v := by
  unfold norm3 Vec3.scale
  simp only
  rw [show (v.x * cf) ^ 2 + (v.y * cf) ^ 2 + (v.z * cf) ^ 2
      = cf ^ 2 * (v.x ^ 2 + v.y ^ 2 + v.z ^ 2) by ring]
  rw [Real.sqrt_mul (sq_nonneg cf), Real.sqrt_sq_eq_abs]

theorem trajectoryPoint_alt_nonneg (lat lon alt vel trk vr t : ℝ)
    (h : norm3 (predictedScaled (latLonAltTo3d lat lon alt)
        (calculateVelocityVector vel trk vr) t alt) ≠ 0) :
    0 ≤ (trajectoryPoint lat lon alt vel trk vr t).altitude := by
  have hR : (0 : ℝ) < earthRadius := by norm_num [earthRadius]
  unfold trajectoryPoint threeDToLatLonAlt predictPositionEnhanced
  simp only
  split_ifs with hlt
  · have hpos : 0 < norm3 (predictedScaled (latLonAltTo3d lat lon alt)
        (calculateVelocityVector vel trk vr) t alt) :=
      lt_of_le_of_ne (norm3_nonneg _) (Ne.symm h)
    rw [norm3_scale,
      abs_of_nonneg (div_nonneg hR.le hpos.le),
      div_mul_cancel₀ _ hpos.ne.symm]
    simp
  · push_neg at hlt
    linarith

/-- Claim C10, amended: every forecast point whose pre-projection
predicted Cartesian vector is nonzero has altitude ≥ 0 — either the
vector already lies at or above the sphere (`altitude = |pos| − R ≥ 0`) or
it is radially projected onto it (`altitude = 0`).  The nonzero side
condition is forced by the counterexample: when the scaled extrapolation
lands exactly at the Earth's center the projection divides by zero (NaN in
the source's float arithmetic, the junk value 0 here) and the reported
altitude is not nonnegative. -/
theorem c10_amended (lat lon : ℝ) (baro geo velocity track vr : Option ℝ)
    (T s : ℝ) :
    ∀ p ∈ predictTrajectory lat lon baro geo velocity track vr T s, ∀ t : ℝ,
      p = trajectoryPoint lat lon (pyOrFloat baro (pyOrFloat geo 35000))
        (pyOrFloat velocity 0) (pyOrFloat track 0) (pyOrFloat vr 0) t →
      norm3 (predictedScaled
        (latLonAltTo3d lat lon (pyOrFloat baro (pyOrFloat geo 35000)))
        (calculateVelocityVector (pyOrFloat velocity 0) (pyOrFloat track 0)
          (pyOrFloat vr 0)) t (pyOrFloat baro (pyOrFloat geo 35000))) ≠ 0 →
      0 ≤ p.altitude := by
  intro p hp t hpt hnz
  rw [hpt]
  exact trajectoryPoint_alt_nonneg _ _ _ _ _ _ _ hnz

/-- Witness for C10 at a concrete cruising flight (`lat 0, lon 0,
baro 10000, speed 200`): the first forecast point exists in the list and
its predicted vector is nonzero, so its altitude is nonnegative. -/
theorem c10_witness :
    0 ≤ (trajectoryPoint 0 0 (pyOrFloat (some 10000) (pyOrFloat none 35000))
      (pyOrFloat (some 200) 0) (pyOrFloat none 0) (pyOrFloat none 0) 0).altitude := by
  have hpy1 : pyOrFloat (some (10000 : ℝ)) (pyOrFloat none 35000) = 10000 :=
    pyOrFloat_some_ne (by norm_num)
  have hpy2 : pyOrFloat (some (200 : ℝ)) 0 = 200 := pyOrFloat_some_ne (by norm_num)
  have hmem : (0 : ℝ) ∈ arange 60 2 :=
    (arange_mem_iff (by norm_num) 0).2 ⟨0, by norm_num, by norm_num⟩
  have hmem2 : trajectoryPoint 0 0 (pyOrFloat (some 10000) (pyOrFloat none 35000))
      (pyOrFloat (some 200) 0) (pyOrFloat none 0) (pyOrFloat none 0) 0
      ∈ predictTrajectory 0 0 (some 10000) none (some 200) none none 60 2 := by
    unfold predictTrajectory
    exact List.mem_map.2 ⟨0, hmem, rfl⟩
  have hvv : calculateVelocityVector 200 0 0 = ⟨200, 0, 0⟩ := by
    unfold calculateVelocityVector
    simp [radians]
  have hsc : predictedScaled ⟨earthRadius + 10000, 0, 0⟩ ⟨200, 0, 0⟩ 0 10000
      = ⟨(earthRadius + 10000) * 1.002, 0, 0⟩ := by
    unfold predictedScaled altitudeCorrectionFactor Vec3.scale
    rw [if_neg (by norm_num : ¬ (10000 : ℝ) < 1000),
        if_neg (by norm_num : ¬ (10000 : ℝ) < 5000),
        if_pos (by norm_num : (10000 : ℝ) < 15000)]
    simp only [Vec3.mk.injEq]
    refine ⟨by ring, by ring, by ring⟩
  have hnz : norm3 (predictedScaled (latLonAltTo3d 0 0 (pyOrFloat (some 10000)
      (pyOrFloat none 35000)))
      (calculateVelocityVector (pyOrFloat (some 200) 0) (pyOrFloat none 0)
        (pyOrFloat none 0)) 0 (pyOrFloat (some 10000) (pyOrFloat none 35000))) ≠ 0 := by
    rw [hpy1, hpy2, pyOrFloat_none, latLonAlt_zero_zero, hvv, hsc]
    unfold norm3
    rw [show ((earthRadius + 10000) * 1.002) ^ 2 + (0 : ℝ) ^ 2 + (0 : ℝ) ^ 2
        = ((earthRadius + 10000) * 1.002) ^ 2 by ring,
      Real.sqrt_sq (by norm_num [earthRadius])]
    norm_num [earthRadius]
  exact c10_amended 0 0 (some 10000) none (some 200) none none 60 2 _ hmem2 0 rfl hnz

/-- Claim C10 (as stated) fails without the nonzero side condition: a
flight at `lat 0, lon 0, baro 100` with (absurd but type-correct) ground
speed 3185550 m/s on track 180° has its `t = 2` extrapolation land exactly
at the Earth's center; the radial projection then divides by zero and the
reported altitude is `−R < 0` (in the source's float arithmetic the same
point is NaN, equally outside `[0, ∞)`). -/
theorem c10_counterexample :
    ∃ p ∈ predictTrajectory 0 0 (some 100) none (some 3185550) (some 180) none 60 2,
      p.altitude < 0 := by
  have hpy1 : pyOrFloat (some (100 : ℝ)) (pyOrFloat none 35000) = 100 :=
    pyOrFloat_some_ne (by norm_num)
  have hpy2 : pyOrFloat (some (3185550 : ℝ)) 0 = 3185550 :=
    pyOrFloat_some_ne (by norm_num)
  have hpy3 : pyOrFloat (some (180 : ℝ)) 0 = 180 := pyOrFloat_some_ne (by norm_num)
  have hrad : radians 180 = Real.pi := by
    unfold radians
    rw [mul_comm, mul_div_assoc]
    norm_num
  have hvv : calculateVelocityVector 3185550 180 0 = ⟨-3185550, 0, 0⟩ := by
    unfold calculateVelocityVector
    rw [hrad]
    simp [Real.cos_pi, Real.sin_pi]
  have hsc : predictedScaled ⟨earthRadius + 100, 0, 0⟩ ⟨-3185550, 0, 0⟩ 2 100
      = ⟨0, 0, 0⟩ := by
    unfold predictedScaled altitudeCorrectionFactor Vec3.scale
    rw [if_pos (by norm_num : (100 : ℝ) < 1000)]
    simp only [Vec3.mk.injEq]
    refine ⟨by norm_num [earthRadius], by ring, by ring⟩
  have hnorm0 : norm3 (⟨0, 0, 0⟩ : Vec3) = 0 := by
    unfold norm3
    simp
  have hppalt : norm3 (predictPositionEnhanced ⟨earthRadius + 100, 0, 0⟩
      ⟨-3185550, 0, 0⟩ 2 100 3185550) = 0 := by
    unfold predictPositionEnhanced
    simp only [hsc, hnorm0]
    rw [if_pos (by norm_num [earthRadius])]
    unfold Vec3.scale norm3
    simp
  have halt : (trajectoryPoint 0 0 100 3185550 180 0 2).altitude = -6371000 := by
    unfold trajectoryPoint
    simp only [latLonAlt_zero_zero, hvv]
    unfold threeDToLatLonAlt
    simp only [hppalt]
    norm_num [earthRadius]
  have hmem : (2 : ℝ) ∈ arange 60 2 :=
    (arange_mem_iff (by norm_num) 2).2 ⟨1, by norm_num, by norm_num⟩
  refine ⟨_, List.mem_map.2 ⟨2, hmem, rfl⟩, ?_⟩
  rw [hpy1, hpy2, hpy3, pyOrFloat_none]
  rw [halt]
  norm_num

/-! ### C6 — confidence monotonicity and convergence of repeated updates

The covariance recursion of `update` does not depend on the measured
value, so it is analysed as a standalone recursion on symmetric 2×2
matrices `⟨p, c, w⟩ = [[p, c], [c, w]]`, compared in the Loewner order
expressed through quadratic forms. -/

/-- A symmetric 2×2 matrix `[[p, c], [c, w]]`. -/
structure Cov where
  p : ℝ
  c : ℝ
  w : ℝ

/-- Quadratic form `uᵀ X u`. -/
noncomputable def Cov.quad (X : Cov) (u1 u2 : ℝ) : ℝ :=
  X.p * u1 ^ 2 + 2 * X.c * u1 * u2 + X.w * u2 ^ 2

/-- Loewner order through quadratic forms. -/
def covLE (X Y : Cov) : Prop := ∀ u1 u2 : ℝ, X.quad u1 u2 ≤ Y.quad u1 u2

/-- Positive semidefiniteness through the quadratic form. -/
def Cov.psd (X : Cov) : Prop := ∀ u1 u2 : ℝ, 0 ≤ X.quad u1 u2

/-- Positive definiteness through the entries (Sylvester). -/
def Cov.pde (X : Cov) : Prop := 0 < X.p ∧ 0 < X.p * X.w - X.c ^ 2

noncomputable def Cov.det (X : Cov) : ℝ := X.p * X.w - X.c ^ 2

/-- Matrix inverse of `[[p, c], [c, w]]`. -/
noncomputable def Cov.inv (X : Cov) : Cov :=
  ⟨X.w / X.det, -X.c / X.det, X.p / X.det⟩

theorem quad_e1 (X : Cov) : X.quad 1 0 = X.p := by unfold Cov.quad; ring

theorem quad_e2 (X : Cov) : X.quad 0 1 = X.w := by unfold Cov.quad; ring

theorem quad_e11 (X : Cov) : X.quad 1 1 = X.p + 2 * X.c + X.w := by
  unfold Cov.quad; ring

theorem psd_of_entries {X : Cov} (hp : 0 ≤ X.p) (hw : 0 ≤ X.w)
    (hd : X.c ^ 2 ≤ X.p * X.w) : X.psd := by
  intro u1 u2
  rcases eq_or_lt_of_le hp with h0 | hpos
  · have hc : X.c = 0 := by nlinarith [sq_nonneg X.c]
    unfold Cov.quad
    rw [← h0, hc]
    nlinarith [sq_nonneg u2]
  · unfold Cov.quad
    nlinarith [sq_nonneg (X.p * u1 + X.c * u2),
      mul_nonneg (sub_nonneg.2 hd) (sq_nonneg u2)]

theorem pde_quad_pos {X : Cov} (h : X.pde) {u1 u2 : ℝ} (hu : ¬ (u1 = 0 ∧ u2 = 0)) :
    0 < X.quad u1 u2 := by
  obtain ⟨hp, hd⟩ := h
  unfold Cov.quad
  rcases eq_or_ne u2 0 with h2 | h2
  · have h1 : u1 ≠ 0 := fun h1 => hu ⟨h1, h2⟩
    rw [h2]
    have := sq_pos_of_ne_zero h1
    nlinarith
  · have := sq_pos_of_ne_zero h2
    nlinarith [sq_nonneg (X.p * u1 + X.c * u2)]

theorem pde_psd {X : Cov} (h : X.pde) : X.psd := by
  refine psd_of_entries h.1.le ?_ ?_
  · nlinarith [h.1, h.2, sq_nonneg X.c]
  · nlinarith [h.2]

theorem covLE_of_entries {X Y : Cov} (hp : X.p ≤ Y.p) (hw : X.w ≤ Y.w)
    (hd : (Y.c - X.c) ^ 2 ≤ (Y.p - X.p) * (Y.w - X.w)) : covLE X Y := by
  intro u1 u2
  have h := psd_of_entries (X := ⟨Y.p - X.p, Y.c - X.c, Y.w - X.w⟩)
    (by simpa using sub_nonneg.2 hp) (by simpa using sub_nonneg.2 hw)
    (by simpa using hd) u1 u2
  unfold Cov.quad at h ⊢
  simp only at h
  linarith

theorem covLE_trans {X Y Z : Cov} (h1 : covLE X Y) (h2 : covLE Y Z) : covLE X Z :=
  fun u1 u2 => le_trans (h1 u1 u2) (h2 u1 u2)

/-! The covariance recursion of one `update(..., dt = 1)` call:
predict with `F = [[1,1],[0,1]]`, `Q = diag(1, 1/10)`, then the
measurement correction with `H = [1,0]`, `R = 100`. -/

/-- Covariance after `predict(1)`: `F X Fᵀ + Q` in entries. -/
noncomputable def predStep (X : Cov) : Cov :=
  ⟨X.p + 2 * X.c + X.w + 1, X.c + X.w, X.w + 1 / 10⟩

/-- `F X Fᵀ` without the process noise. -/
noncomputable def fcongr (X : Cov) : Cov :=
  ⟨X.p + 2 * X.c + X.w, X.c + X.w, X.w⟩

/-- Covariance after the measurement correction `(I − K H) X` with
`K = X Hᵀ / (X.p + 100)`. -/
noncomputable def updStep (X : Cov) : Cov :=
  ⟨X.p - X.p * X.p / (X.p + 100),
   X.c - X.p * X.c / (X.p + 100),
   X.w - X.c * X.c / (X.p + 100)⟩

/-- Covariance after `n` `update(a, None, None, dt=1)` calls on a fresh
filter (independent of the measured values). -/
noncomputable def covN : ℕ → Cov
  | 0 => ⟨1000, 0, 100⟩
  | n + 1 => updStep (predStep (covN n))

theorem predStep_quad (X : Cov) (u1 u2 : ℝ) :
    (predStep X).quad u1 u2 = X.quad u1 (u1 + u2) + (u1 ^ 2 + u2 ^ 2 / 10) := by
  unfold predStep Cov.quad
  ring

theorem fcongr_quad (X : Cov) (u1 u2 : ℝ) :
    (fcongr X).quad u1 u2 = X.quad u1 (u1 + u2) := by
  unfold fcongr Cov.quad
  ring

theorem predStep_mono {X Y : Cov} (h : covLE X Y) :
    covLE (predStep X) (predStep Y) := by
  intro u1 u2
  rw [predStep_quad, predStep_quad]
  have := h u1 (u1 + u2)
  linarith

theorem predStep_psd {X : Cov} (h : X.psd) : (predStep X).psd := by
  intro u1 u2
  rw [predStep_quad]
  have := h u1 (u1 + u2)
  nlinarith [sq_nonneg u1, sq_nonneg u2]

theorem psd_p_nonneg {X : Cov} (h : X.psd) : 0 ≤ X.p := by
  have := h 1 0
  rwa [quad_e1] at this

theorem updStep_quad {X : Cov} (hS : X.p + 100 ≠ 0) (u1 u2 : ℝ) :
    (updStep X).quad u1 u2
      = X.quad u1 u2 - (X.p * u1 + X.c * u2) ^ 2 / (X.p + 100) := by
  unfold updStep Cov.quad
  field_simp
  ring

theorem updStep_attain {X : Cov} (hS : X.p + 100 ≠ 0) (u1 u2 : ℝ) :
    (updStep X).quad u1 u2
      = X.quad (u1 - (X.p * u1 + X.c * u2) / (X.p + 100)) u2
        + 100 * ((X.p * u1 + X.c * u2) / (X.p + 100)) ^ 2 := by
  unfold updStep Cov.quad
  field_simp
  ring

theorem updStep_complete {X : Cov} (hS : 0 < X.p + 100) (u1 u2 t : ℝ) :
    (updStep X).quad u1 u2 ≤ X.quad (u1 - t) u2 + 100 * t ^ 2 := by
  have heq := updStep_quad hS.ne.symm u1 u2
  have key : (X.quad (u1 - t) u2 + 100 * t ^ 2)
      - (X.quad u1 u2 - (X.p * u1 + X.c * u2) ^ 2 / (X.p + 100))
      = ((X.p + 100) * t - (X.p * u1 + X.c * u2)) ^ 2 / (X.p + 100) := by
    unfold Cov.quad
    field_simp
    ring
  have hnn : 0 ≤ ((X.p + 100) * t - (X.p * u1 + X.c * u2)) ^ 2 / (X.p + 100) :=
    div_nonneg (sq_nonneg _) hS.le
  linarith [heq, key.ge, key.le]

theorem updStep_mono {X Y : Cov} (hX : X.psd) (hY : Y.psd) (h : covLE X Y) :
    covLE (updStep X) (updStep Y) := by
  intro u1 u2
  have hSX : 0 < X.p + 100 := by have := psd_p_nonneg hX; linarith
  have hSY : 0 < Y.p + 100 := by have := psd_p_nonneg hY; linarith
  calc (updStep X).quad u1 u2
      ≤ X.quad (u1 - (Y.p * u1 + Y.c * u2) / (Y.p + 100)) u2
        + 100 * ((Y.p * u1 + Y.c * u2) / (Y.p + 100)) ^ 2 :=
        updStep_complete hSX u1 u2 _
    _ ≤ Y.quad (u1 - (Y.p * u1 + Y.c * u2) / (Y.p + 100)) u2
        + 100 * ((Y.p * u1 + Y.c * u2) / (Y.p + 100)) ^ 2 := by
        have := h (u1 - (Y.p * u1 + Y.c * u2) / (Y.p + 100)) u2
        linarith
    _ = (updStep Y).quad u1 u2 := (updStep_attain hSY.ne.symm u1 u2).symm

theorem updStep_psd {X : Cov} (hX : X.psd) : (updStep X).psd := by
  intro u1 u2
  have hS : 0 < X.p + 100 := by have := psd_p_nonneg hX; linarith
  rw [updStep_attain hS.ne.symm]
  have h1 := hX (u1 - (X.p * u1 + X.c * u2) / (X.p + 100)) u2
  nlinarith [sq_nonneg ((X.p * u1 + X.c * u2) / (X.p + 100))]

theorem covN_psd : ∀ n, (covN n).psd := by
  intro n
  induction n with
  | zero =>
    exact psd_of_entries (X := ⟨1000, 0, 100⟩) (by norm_num) (by norm_num) (by norm_num)
  | succ m ih =>
    exact updStep_psd (predStep_psd ih)

theorem covLE_refl (X : Cov) : covLE X X := fun _ _ => le_rfl

/-- After the first update the covariance sequence is non-increasing in
the Loewner order: the map `updStep ∘ predStep` is order-preserving and
the concrete base case `covN 2 ⊑ covN 1` is checked by rational
arithmetic. -/
theorem covN_mono : ∀ n, covLE (covN (n + 2)) (covN (n + 1)) := by
  intro n
  induction n with
  | zero =>
    refine covLE_of_entries ?_ ?_ ?_ <;> norm_num [covN, predStep, updStep]
  | succ m ih =>
    show covLE (updStep (predStep (covN (m + 2)))) (updStep (predStep (covN (m + 1))))
    exact updStep_mono (predStep_psd (covN_psd _)) (predStep_psd (covN_psd _))
      (predStep_mono ih)

theorem covN_le_one : ∀ n, covLE (covN (n + 1)) (covN 1) := by
  intro n
  induction n with
  | zero => exact covLE_refl _
  | succ m ih => exact covLE_trans (covN_mono m) ih

theorem predStep_pde {X : Cov} (hpsd : X.psd) (hpde : X.pde) : (predStep X).pde := by
  have hA : 0 ≤ X.p + 2 * X.c + X.w := by
    have := hpsd 1 1
    rwa [quad_e11] at this
  have hw : 0 ≤ X.w := by
    have := hpsd 0 1
    rwa [quad_e2] at this
  have hd := hpde.2
  constructor
  · show 0 < X.p + 2 * X.c + X.w + 1
    linarith
  · show 0 < (X.p + 2 * X.c + X.w + 1) * (X.w + 1 / 10) - (X.c + X.w) ^ 2
    nlinarith

theorem updStep_det {X : Cov} (hS : X.p + 100 ≠ 0) :
    (updStep X).det = 100 * X.det / (X.p + 100) := by
  unfold updStep Cov.det
  field_simp
  ring

theorem updStep_pde {X : Cov} (hpde : X.pde) : (updStep X).pde := by
  have hS : 0 < X.p + 100 := by linarith [hpde.1]
  constructor
  · show 0 < X.p - X.p * X.p / (X.p + 100)
    rw [show X.p - X.p * X.p / (X.p + 100) = 100 * X.p / (X.p + 100) by
      field_simp; ring]
    exact div_pos (mul_pos (by norm_num) hpde.1) hS
  · show 0 < (updStep X).p * (updStep X).w - (updStep X).c ^ 2
    have h2 : (updStep X).p * (updStep X).w - (updStep X).c ^ 2 = (updStep X).det := rfl
    rw [h2, updStep_det hS.ne.symm]
    have hdet : 0 < X.det := hpde.2
    exact div_pos (mul_pos (by norm_num) hdet) hS

theorem covN_pde : ∀ n, (covN n).pde := by
  intro n
  induction n with
  | zero =>
    constructor
    · show (0 : ℝ) < 1000
      norm_num
    · show (0 : ℝ) < 1000 * 100 - 0 ^ 2
      norm_num
  | succ m ih =>
    exact updStep_pde (predStep_pde (covN_psd m) ih)

/-- `n` successive `update(a, None, None, dt = 1)` calls on a fresh
filter — the claim's "repeated identical update(a) calls" at the source's
default 1-second cadence. -/
noncomputable def updIter (a : ℝ) : ℕ → KalmanState
  | 0 => KalmanState.init
  | n + 1 => KalmanState.update a none none 1 (updIter a n)

/-- The filter's covariance after `n` updates is `covN n` (and `R` stays
100): the covariance recursion is independent of the measured values. -/
theorem updIter_cov (a : ℝ) : ∀ n,
    (updIter a n).covariance.a = (covN n).p ∧
    (updIter a n).covariance.b = (covN n).c ∧
    (updIter a n).covariance.c = (covN n).c ∧
    (updIter a n).covariance.d = (covN n).w ∧
    (updIter a n).R = 100 := by
  intro n
  induction n with
  | zero =>
    refine ⟨?_, ?_, ?_, ?_, ?_⟩ <;>
      simp [updIter, covN, KalmanState.init]
  | succ m ih =>
    obtain ⟨ha, hb, hc, hd, hR⟩ := ih
    rw [show updIter a (m + 1) = KalmanState.update a none none 1 (updIter a m)
          from rfl,
        show covN (m + 1) = updStep (predStep (covN m)) from rfl]
    unfold KalmanState.update KalmanState.predict
    simp only [Fmat, Qnoise, Mat2.mul_def, Mat2.add_def, Mat2.transpose, Mat2.mulVec]
    unfold updStep predStep
    rw [ha, hb, hc, hd, hR]
    refine ⟨by ring, by ring, by ring, by ring, rfl⟩

theorem updIter_conf (a : ℝ) (n : ℕ) :
    (updIter a n).getConfidence = max 0 (min 1 (1 - (covN n).p / 1000)) := by
  unfold KalmanState.getConfidence
  rw [(updIter_cov a n).1]

/-! Inverse quadratic forms through the Fenchel bound
`2⟨u, v⟩ − ⟨v, Xv⟩ ≤ ⟨u, X⁻¹u⟩`, with equality at `v = X⁻¹u` — this makes
the matrix inverse order-reversing, which drives both the covariance
monotonicity and the Lyapunov contraction below. -/

theorem fenchel_ub {X : Cov} (hpsd : X.psd) (hdet : X.det ≠ 0) (u1 u2 v1 v2 : ℝ) :
    2 * (u1 * v1 + u2 * v2) - X.quad v1 v2 ≤ X.inv.quad u1 u2 := by
  have hd : X.p * X.w - X.c ^ 2 ≠ 0 := hdet
  have h := hpsd (v1 - (X.w * u1 - X.c * u2) / X.det)
    (v2 - (-X.c * u1 + X.p * u2) / X.det)
  have key : X.quad (v1 - (X.w * u1 - X.c * u2) / X.det)
      (v2 - (-X.c * u1 + X.p * u2) / X.det)
      = X.quad v1 v2 - 2 * (u1 * v1 + u2 * v2) + X.inv.quad u1 u2 := by
    unfold Cov.quad Cov.inv Cov.det
    field_simp
    ring
  rw [key] at h
  linarith

theorem fenchel_attain {X : Cov} (hdet : X.det ≠ 0) (u1 u2 : ℝ) :
    X.inv.quad u1 u2
      = 2 * (u1 * ((X.w * u1 - X.c * u2) / X.det)
          + u2 * ((-X.c * u1 + X.p * u2) / X.det))
        - X.quad ((X.w * u1 - X.c * u2) / X.det) ((-X.c * u1 + X.p * u2) / X.det) := by
  have hd : X.p * X.w - X.c ^ 2 ≠ 0 := hdet
  unfold Cov.quad Cov.inv Cov.det
  field_simp
  ring

theorem inv_antitone {X Y : Cov} (hX : X.pde) (hY : Y.pde) (h : covLE X Y) :
    covLE Y.inv X.inv := by
  intro u1 u2
  have hdX : X.det ≠ 0 := ne_of_gt hX.2
  have hdY : Y.det ≠ 0 := ne_of_gt hY.2
  have h1 := fenchel_attain hdY u1 u2
  have h2 := h ((Y.w * u1 - Y.c * u2) / Y.det) ((-Y.c * u1 + Y.p * u2) / Y.det)
  have h3 := fenchel_ub (pde_psd hX) hdX u1 u2
    ((Y.w * u1 - Y.c * u2) / Y.det) ((-Y.c * u1 + Y.p * u2) / Y.det)
  linarith

theorem inv_pde {X : Cov} (h : X.pde) : X.inv.pde := by
  have hd : (0 : ℝ) < X.det := h.2
  have hd' : X.p * X.w - X.c ^ 2 ≠ 0 := ne_of_gt h.2
  have hw : 0 < X.w := by nlinarith [h.1, h.2, sq_nonneg X.c]
  constructor
  · exact div_pos hw hd
  · have key : X.w / X.det * (X.p / X.det) - (-X.c / X.det) ^ 2 = 1 / X.det := by
      unfold Cov.det
      field_simp
      ring
    show 0 < X.w / X.det * (X.p / X.det) - (-X.c / X.det) ^ 2
    rw [key]
    exact div_pos one_pos hd

/-- Scalar multiple of a symmetric matrix. -/
noncomputable def Cov.smul (t : ℝ) (X : Cov) : Cov := ⟨t * X.p, t * X.c, t * X.w⟩

theorem smul_quad (t : ℝ) (X : Cov) (u1 u2 : ℝ) :
    (Cov.smul t X).quad u1 u2 = t * X.quad u1 u2 := by
  unfold Cov.smul Cov.quad
  ring

theorem smul_pde {t : ℝ} (ht : 0 < t) {X : Cov} (h : X.pde) : (Cov.smul t X).pde := by
  constructor
  · exact mul_pos ht h.1
  · show 0 < t * X.p * (t * X.w) - (t * X.c) ^ 2
    nlinarith [mul_pos (mul_pos ht ht) h.2]

theorem smul_inv {t : ℝ} (ht : t ≠ 0) {X : Cov} (hdet : X.det ≠ 0) :
    (Cov.smul t X).inv = Cov.smul (1 / t) X.inv := by
  have hd : X.p * X.w - X.c ^ 2 ≠ 0 := hdet
  unfold Cov.smul Cov.inv Cov.det
  simp only [Cov.mk.injEq]
  refine ⟨?_, ?_, ?_⟩ <;>
    rw [show t * X.p * (t * X.w) - (t * X.c) ^ 2
        = t ^ 2 * (X.p * X.w - X.c ^ 2) by ring] <;>
    field_simp <;>
    ring

theorem smul_inv_quad {t : ℝ} (ht : t ≠ 0) {X : Cov} (hdet : X.det ≠ 0) (u1 u2 : ℝ) :
    (Cov.smul t X).inv.quad u1 u2 = (1 / t) * X.inv.quad u1 u2 := by
  rw [smul_inv ht hdet, smul_quad]

theorem fcongr_pde {X : Cov} (h : X.pde) : (fcongr X).pde := by
  constructor
  · have hq := @pde_quad_pos _ h 1 1 (by simp)
    rw [quad_e11] at hq
    exact hq
  · show 0 < (X.p + 2 * X.c + X.w) * X.w - (X.c + X.w) ^ 2
    have h2 := h.2
    nlinarith

theorem fcongr_inv_quad {X : Cov} (hdet : X.det ≠ 0) (e r : ℝ) :
    (fcongr X).inv.quad (e + r) r = X.inv.quad e r := by
  have hde : (fcongr X).det = X.det := by
    unfold fcongr Cov.det
    ring
  unfold Cov.inv Cov.quad
  rw [hde]
  unfold fcongr
  simp only
  field_simp
  ring

/-- The covariance-weighted error identity of one update step: with
`X` the predicted covariance and `S = X.p + 100`, the corrected error
`((1 − p/S)·ê, r − (c/S)·ê)` measured in the corrected covariance's
inverse equals the predicted error `(ê, r)` measured in `X⁻¹` minus
`ê²/S`. -/
theorem upd_err_identity {X : Cov} (hdet : X.det ≠ 0) (hS : X.p + 100 ≠ 0)
    (eh r : ℝ) :
    (updStep X).inv.quad ((1 - X.p / (X.p + 100)) * eh)
      (r - X.c / (X.p + 100) * eh)
      = X.inv.quad eh r - eh ^ 2 / (X.p + 100) := by
  have hd : X.p * X.w - X.c ^ 2 ≠ 0 := hdet
  have hde : (updStep X).det = 100 * X.det / (X.p + 100) := updStep_det hS
  unfold Cov.inv Cov.quad
  rw [hde]
  unfold updStep Cov.det
  simp only
  field_simp
  ring

/-- Concrete spectral bound on the covariance after one update:
`covN 1 ⊑ 101·I` as quadratic forms. -/
theorem quad_covN1_bound (v1 v2 : ℝ) :
    (covN 1).quad v1 v2 ≤ 101 * (v1 ^ 2 + v2 ^ 2) := by
  unfold Cov.quad
  norm_num [covN, predStep, updStep]
  nlinarith [sq_nonneg (v1 + v2), sq_nonneg (v1 - v2), sq_nonneg v1, sq_nonneg v2]

/-- The process noise dominates `1/3030` of the propagated covariance:
`(1/3030)·F X Fᵀ ⊑ Q` whenever `X ⊑ covN 1`. -/
theorem gammaQ {X : Cov} (hle : covLE X (covN 1)) (u1 u2 : ℝ) :
    (1 / 3030) * (fcongr X).quad u1 u2 ≤ u1 ^ 2 + u2 ^ 2 / 10 := by
  rw [fcongr_quad]
  have h1 := hle u1 (u1 + u2)
  have h2 := quad_covN1_bound u1 (u1 + u2)
  nlinarith [sq_nonneg (u1 + u2), sq_nonneg u1, sq_nonneg u2]

/-- One full update step contracts the covariance-weighted error energy by
the factor `ρ = 3030/3031 < 1`.  `X` is the pre-update covariance; the
arguments of the left quadratic form are the corrected error
`((1 − k₀)·ê, r − k₁·ê)` with `ê = e + r`. -/
theorem Vstep_key {X : Cov} (hpde : X.pde) (hle : covLE X (covN 1)) (e r : ℝ) :
    (updStep (predStep X)).inv.quad
        ((1 - (predStep X).p / ((predStep X).p + 100)) * (e + r))
        (r - (predStep X).c / ((predStep X).p + 100) * (e + r))
      ≤ (3030 / 3031) * X.inv.quad e r := by
  have hpsd := pde_psd hpde
  have hXp_pde : (predStep X).pde := predStep_pde hpsd hpde
  have hS : 0 < (predStep X).p + 100 := by linarith [hXp_pde.1]
  have hdetXp : (predStep X).det ≠ 0 := ne_of_gt hXp_pde.2
  have hid := upd_err_identity hdetXp hS.ne.symm (e + r) r
  have hM_pde : (fcongr X).pde := fcongr_pde hpde
  have hsmul_pde : (Cov.smul (3031 / 3030) (fcongr X)).pde :=
    smul_pde (by norm_num) hM_pde
  have hge : covLE (Cov.smul (3031 / 3030) (fcongr X)) (predStep X) := by
    intro u1 u2
    rw [smul_quad, predStep_quad, ← fcongr_quad]
    have hg := gammaQ hle u1 u2
    linarith
  have hmono := inv_antitone hsmul_pde hXp_pde hge
  have h1 := hmono (e + r) r
  have h2 : (Cov.smul (3031 / 3030) (fcongr X)).inv.quad (e + r) r
      = (3030 / 3031) * ((fcongr X).inv.quad (e + r) r) := by
    rw [smul_inv_quad (by norm_num) (ne_of_gt hM_pde.2)]
    norm_num
  have h3 : (fcongr X).inv.quad (e + r) r = X.inv.quad e r :=
    fcongr_inv_quad (ne_of_gt hpde.2) e r
  have hsq : 0 ≤ (e + r) ^ 2 / ((predStep X).p + 100) :=
    div_nonneg (sq_nonneg _) hS.le
  rw [h2, h3] at h1
  linarith [hid.le, hid.ge]

/-- Altitude error of the filter after `n` updates with measurement `a`. -/
noncomputable def errA (a : ℝ) (n : ℕ) : ℝ := (updIter a n).state.x - a

/-- Vertical-rate component of the filter state after `n` updates. -/
noncomputable def errR (a : ℝ) (n : ℕ) : ℝ := (updIter a n).state.y

/-- Covariance-weighted error energy (the Lyapunov function). -/
noncomputable def Vseq (a : ℝ) (n : ℕ) : ℝ :=
  (covN n).inv.quad (errA a n) (errR a n)

/-- The error recursion of one `update(a, None, None, dt=1)` call. -/
theorem err_rec (a : ℝ) (n : ℕ) :
    errA a (n + 1)
      = (1 - (predStep (covN n)).p / ((predStep (covN n)).p + 100))
        * (errA a n + errR a n) ∧
    errR a (n + 1)
      = errR a n - (predStep (covN n)).c / ((predStep (covN n)).p + 100)
        * (errA a n + errR a n) := by
  obtain ⟨ha, hb, hc, hd, hR⟩ := updIter_cov a n
  unfold errA errR
  rw [show updIter a (n + 1) = KalmanState.update a none none 1 (updIter a n)
      from rfl]
  unfold KalmanState.update KalmanState.predict
  simp only [Fmat, Qnoise, Mat2.mul_def, Mat2.add_def, Mat2.transpose, Mat2.mulVec]
  rw [ha, hb, hc, hd, hR]
  unfold predStep
  constructor <;> ring

theorem Vseq_step (a : ℝ) (n : ℕ) (hn : 1 ≤ n) :
    Vseq a (n + 1) ≤ (3030 / 3031) * Vseq a n := by
  have hpde := covN_pde n
  have hle : covLE (covN n) (covN 1) := by
    obtain ⟨m, rfl⟩ : ∃ m, n = m + 1 := ⟨n - 1, by omega⟩
    exact covN_le_one m
  have hrec := err_rec a n
  unfold Vseq
  rw [show covN (n + 1) = updStep (predStep (covN n)) from rfl, hrec.1, hrec.2]
  exact Vstep_key hpde hle (errA a n) (errR a n)

theorem Vseq_geom (a : ℝ) : ∀ n, Vseq a (n + 1) ≤ (3030 / 3031) ^ n * Vseq a 1 := by
  intro n
  induction n with
  | zero => simp
  | succ m ih =>
    calc Vseq a (m + 2) ≤ (3030 / 3031) * Vseq a (m + 1) :=
          Vseq_step a (m + 1) (by omega)
      _ ≤ (3030 / 3031) * ((3030 / 3031) ^ m * Vseq a 1) := by
          have : (0 : ℝ) ≤ 3030 / 3031 := by norm_num
          exact mul_le_mul_of_nonneg_left ih this
      _ = (3030 / 3031) ^ (m + 1) * Vseq a 1 := by ring

theorem Vseq_lower (a : ℝ) (n : ℕ) (hn : 1 ≤ n) :
    (errA a n) ^ 2 / 101 ≤ Vseq a n := by
  have hpde := covN_pde n
  have hle : covLE (covN n) (⟨101, 0, 101⟩ : Cov) := by
    intro u1 u2
    have h1 : covLE (covN n) (covN 1) := by
      obtain ⟨m, rfl⟩ : ∃ m, n = m + 1 := ⟨n - 1, by omega⟩
      exact covN_le_one m
    have h2 := quad_covN1_bound u1 u2
    have h3 := h1 u1 u2
    show _ ≤ (Cov.mk 101 0 101).quad u1 u2
    unfold Cov.quad
    unfold Cov.quad at h2 h3
    simp only
    nlinarith
  have hIpde : (⟨101, 0, 101⟩ : Cov).pde := by
    constructor
    · show (0 : ℝ) < 101
      norm_num
    · show (0 : ℝ) < 101 * 101 - 0 ^ 2
      norm_num
  have hmono := inv_antitone hpde hIpde hle (errA a n) (errR a n)
  have hcalc : (⟨101, 0, 101⟩ : Cov).inv.quad (errA a n) (errR a n)
      = (errA a n) ^ 2 / 101 + (errR a n) ^ 2 / 101 := by
    unfold Cov.inv Cov.quad Cov.det
    norm_num
    ring
  have hr2 : 0 ≤ (errR a n) ^ 2 / 101 := by positivity
  unfold Vseq
  rw [hcalc] at hmono
  linarith

theorem conf_mono (a : ℝ) (n : ℕ) :
    (updIter a n).getConfidence ≤ (updIter a (n + 1)).getConfidence := by
  rw [updIter_conf, updIter_conf]
  cases n with
  | zero =>
    have h0 : (covN 0).p = 1000 := rfl
    rw [h0]
    have hz : (1 : ℝ) - 1000 / 1000 = 0 := by norm_num
    rw [hz]
    have hmin : min (1 : ℝ) 0 = 0 := by norm_num
    rw [hmin]
    simp
  | succ m =>
    have hp : (covN (m + 2)).p ≤ (covN (m + 1)).p := by
      have h := covN_mono m 1 0
      rwa [quad_e1, quad_e1] at h
    exact max_le_max le_rfl (min_le_min le_rfl (by linarith))

theorem conf_bounds (kf : KalmanState) :
    0 ≤ kf.getConfidence ∧ kf.getConfidence ≤ 1 := by
  unfold KalmanState.getConfidence
  exact ⟨le_max_left _ _, max_le (by norm_num) (min_le_left _ _)⟩

theorem updIter_tendsto (a : ℝ) :
    Filter.Tendsto (fun n => (updIter a n).state.x) Filter.atTop (nhds a) := by
  have hb : ∀ n : ℕ, (errA a (n + 1)) ^ 2 ≤ 101 * Vseq a 1 * (3030 / 3031) ^ n := by
    intro n
    have h1 := Vseq_lower a (n + 1) (by omega)
    have h2 := Vseq_geom a n
    nlinarith [h1, h2]
  have hρ : Filter.Tendsto (fun n : ℕ => ((3030 : ℝ) / 3031) ^ n)
      Filter.atTop (nhds 0) :=
    tendsto_pow_atTop_nhds_zero_of_lt_one (by norm_num) (by norm_num)
  have hg : Filter.Tendsto (fun n : ℕ => 101 * Vseq a 1 * ((3030 : ℝ) / 3031) ^ n)
      Filter.atTop (nhds 0) := by
    have h := hρ.const_mul (101 * Vseq a 1)
    simpa [mul_comm] using h
  have hsq : Filter.Tendsto (fun n : ℕ => (errA a (n + 1)) ^ 2)
      Filter.atTop (nhds 0) :=
    tendsto_of_tendsto_of_tendsto_of_le_of_le tendsto_const_nhds hg
      (fun n => sq_nonneg _) hb
  have habs : Filter.Tendsto (fun n : ℕ => |errA a (n + 1)|)
      Filter.atTop (nhds 0) := by
    have hcomp := (Real.continuous_sqrt.tendsto 0).comp hsq
    rw [Real.sqrt_zero] at hcomp
    have hfun : ((fun x => Real.sqrt x) ∘ fun n : ℕ => (errA a (n + 1)) ^ 2)
        = fun n : ℕ => |errA a (n + 1)| := by
      funext n
      simp [Function.comp, Real.sqrt_sq_eq_abs]
    rwa [hfun] at hcomp
  have herr1 : Filter.Tendsto (fun n : ℕ => errA a (n + 1))
      Filter.atTop (nhds 0) := by
    rw [tendsto_zero_iff_abs_tendsto_zero]
    exact habs
  have herr : Filter.Tendsto (fun n : ℕ => errA a n) Filter.atTop (nhds 0) :=
    (Filter.tendsto_add_atTop_iff_nat 1).1 herr1
  have hfin := herr.add_const a
  rw [zero_add] at hfin
  have heq : (fun n : ℕ => errA a n + a) = fun n => (updIter a n).state.x := by
    funext n
    unfold errA
    ring
  rwa [heq] at hfin

/-- Claim C6 (as stated) fails: `dt` in `update` is the wall-clock gap
since the previous call, and the monotonicity of `get_confidence()` under
repeated identical `update(a)` calls depends on that gap.  Concretely:
first `update(a)` (first call, so `dt = 1.0`) leaves `P₀₀ = 110100/1201 ≈
91.67` and confidence `≈ 0.9083`; a second `update(a)` made 8 seconds
later — the service's own refresh cadence — predicts with `dt = 8`,
inflating `P₀₀` to `7325387400/74454874 ≈ 98.39`, and the confidence
strictly *drops* to `≈ 0.9016`.  (The measurement value does not enter
the covariance recursion, so `a = 35000` is representative.) -/
theorem c6_counterexample :
    ((KalmanState.init.update 35000 none none 1).update
        35000 none none 8).getConfidence
      < (KalmanState.init.update 35000 none none 1).getConfidence := by
  simp only [KalmanState.init, KalmanState.update, KalmanState.predict,
    KalmanState.getConfidence, Fmat, Qnoise, Mat2.mulVec, Mat2.transpose,
    Mat2.mul_def, Mat2.add_def]
  norm_num

/-- Claim C6, amended: `get_confidence()` is `clamp(1 − P₀₀/1000, 0, 1)`,
hence in `[0, 1]` after any call sequence whatsoever; and when the
repeated identical `update(a)` calls arrive at the filter's default
1-second cadence (the `dt` the source uses when no prior timestamp
exists), the confidence sequence is monotonically non-decreasing (the
covariance sequence is Loewner-non-increasing after the first update) and
the filtered altitude converges to `a` (the covariance-weighted error
energy contracts geometrically at rate `3030/3031` once the covariance is
below its post-first-update bound).  At other call spacings monotonicity
fails: at the system's 8-second poll spacing the confidence strictly
decreases between the first two calls. -/
theorem c6_amended (a : ℝ) :
    (∀ kf : KalmanState, 0 ≤ kf.getConfidence ∧ kf.getConfidence ≤ 1) ∧
    (∀ n : ℕ, (updIter a n).getConfidence ≤ (updIter a (n + 1)).getConfidence) ∧
    Filter.Tendsto (fun n => (updIter a n).state.x) Filter.atTop (nhds a) :=
  ⟨fun kf => conf_bounds kf, fun n => conf_mono a n, updIter_tendsto a⟩

end PlaneTracker
